import Mathlib

/-!
Verification development for the Sentinel chatbot core: the KQL template
registry (`src/queries/__init__.py`), the backend query executor
(`src/sentinel_client.py`), the tool dispatcher (`src/tool_handlers.py`) and
the conversation orchestrator (`src/openai_client.py`).

The Python code is shallowly embedded: dynamically typed Python values become
the inductive `PyVal`, fallible code returns `Except PyExc`, the Azure
backend and the language-model service (external collaborators) are modelled
as explicit function parameters, and every operation additionally returns the
list of KQL query strings it sent to the backend, so that "never reaches the
backend" is a provable statement.
-/

namespace AzSentinel

/-- A single quote character, used when assembling Python-style quoted
strings (for example the severity filter fragments). -/
def sq : String := String.singleton (Char.ofNat 39)

/-- A Python runtime value, as produced by `json.loads` and by the rows of
an Azure `LogsTable`.  Floats carry a rational payload: no verified property
involves float rounding.  `datetime` carries POSIX seconds (the code treats
every datetime as UTC; tz-awareness bookkeeping is dropped because no claim
observes it). -/
inductive PyVal where
  | none : PyVal
  | bool : Bool → PyVal
  | int : Int → PyVal
  | float : ℚ → PyVal
  | str : String → PyVal
  | datetime : Int → PyVal
  | list : List PyVal → PyVal
  | dict : List (String × PyVal) → PyVal

/-- A Python exception crossing a function boundary. -/
inductive PyExc where
  | valueError : String → PyExc
  | typeError : String → PyExc
  | attributeError : String → PyExc
  | jsonDecodeError : String → PyExc
  | keyError : String → PyExc
deriving DecidableEq, Repr

/-- Python truthiness (`bool(v)`). -/
def pyTruthy : PyVal → Bool
  | .none => false
  | .bool b => b
  | .int n => n ≠ 0
  | .float q => q ≠ 0
  | .str s => s ≠ ""
  | .datetime _ => true
  | .list xs => ¬xs.isEmpty
  | .dict xs => ¬xs.isEmpty

/-- `dict(zip(columns, row))` keeps the LAST value for a duplicated key;
this lookup therefore scans from the right. -/
def lookupLast (key : String) : List (String × PyVal) → Option PyVal
  | [] => Option.none
  | (k, v) :: rest =>
    match lookupLast key rest with
    | Option.some r => Option.some r
    | Option.none => if k = key then Option.some v else Option.none

/-- `d.get(key, default)` on a Python dict. -/
def dictGetD (d : List (String × PyVal)) (key : String) (default : PyVal) : PyVal :=
  match lookupLast key d with
  | Option.some v => v
  | Option.none => default

def pad2 (n : Int) : String :=
  if n < 10 then "0" ++ toString n else toString n

def pad4 (n : Int) : String :=
  if n < 10 then "000" ++ toString n
  else if n < 100 then "00" ++ toString n
  else if n < 1000 then "0" ++ toString n
  else toString n

/-- Days since 1970-01-01 for a civil date (Howard Hinnant's algorithm,
C-style truncating division; all claim-relevant dates are CE so the
branches for negative years are exercised only vacuously). -/
def daysFromCivil (y m d : Int) : Int :=
  let y' := if m ≤ 2 then y - 1 else y
  let era := (if 0 ≤ y' then y' else y' - 399).tdiv 400
  let yoe := y' - era * 400
  let mp := if 2 < m then m - 3 else m + 9
  let doy := (153 * mp + 2).tdiv 5 + d - 1
  let doe := yoe * 365 + yoe.tdiv 4 - yoe.tdiv 100 + doy
  era * 146097 + doe - 719468

/-- Civil date (year, month, day) from days since the epoch. -/
def civilFromDays (z : Int) : Int × Int × Int :=
  let z' := z + 719468
  let era := (if 0 ≤ z' then z' else z' - 146096).tdiv 146097
  let doe := z' - era * 146097
  let yoe := (doe - doe.tdiv 1460 + doe.tdiv 36524 - doe.tdiv 146096).tdiv 365
  let y := yoe + era * 400
  let doy := doe - (365 * yoe + yoe.tdiv 4 - yoe.tdiv 100)
  let mp := (5 * doy + 2).tdiv 153
  let d := doy - (153 * mp + 2).tdiv 5 + 1
  let m := if mp < 10 then mp + 3 else mp - 9
  (if m ≤ 2 then y + 1 else y, m, d)

/-- Floor-divide POSIX seconds into days. -/
def epochDays (t : Int) : Int := t.fdiv 86400

/-- Seconds past midnight, always in `[0, 86400)`. -/
def secondsOfDay (t : Int) : Int := t.emod 86400

/-- `datetime.isoformat()` for a UTC datetime with zero microseconds:
`YYYY-MM-DDTHH:MM:SS+00:00`. -/
def isoformat (t : Int) : String :=
  let c := civilFromDays (epochDays t)
  let s := secondsOfDay t
  pad4 c.1 ++ "-" ++ pad2 c.2.1 ++ "-" ++ pad2 c.2.2 ++ "T" ++
    pad2 (s.tdiv 3600) ++ ":" ++ pad2 ((s.tdiv 60).emod 60) ++ ":" ++
    pad2 (s.emod 60) ++ "+00:00"

/-- `str(datetime)` uses a space separator instead of `T`. -/
def datetimeStr (t : Int) : String :=
  let c := civilFromDays (epochDays t)
  let s := secondsOfDay t
  pad4 c.1 ++ "-" ++ pad2 c.2.1 ++ "-" ++ pad2 c.2.2 ++ " " ++
    pad2 (s.tdiv 3600) ++ ":" ++ pad2 ((s.tdiv 60).emod 60) ++ ":" ++
    pad2 (s.emod 60) ++ "+00:00"

/-- `str(float)` is modelled as the rational rendered by Lean; no verified
property inspects a float's textual form. -/
def floatStr (q : ℚ) : String := toString q

mutual
/-- Python `str(v)`. Lists and dicts render via `repr` as in CPython.
(The `termination_by structural` annotations keep this mutual recursion
structural, so it evaluates by kernel reduction.) -/
def pyStr : PyVal → String
  | .none => "None"
  | .bool b => if b then "True" else "False"
  | .int n => toString n
  | .float q => floatStr q
  | .str s => s
  | .datetime t => datetimeStr t
  | .list xs => "[" ++ String.intercalate ", " (pyReprList xs) ++ "]"
  | .dict xs => "\x7b" ++ String.intercalate ", " (pyReprPairs xs) ++ "\x7d"
termination_by structural v => v

/-- Python `repr(v)`; strings gain single quotes, every other base case
renders as `str` does (the base branches are spelled out so the mutual
recursion stays structural). -/
def pyRepr : PyVal → String
  | .none => "None"
  | .bool b => if b then "True" else "False"
  | .int n => toString n
  | .float q => floatStr q
  | .str s => sq ++ s ++ sq
  | .datetime t => datetimeStr t
  | .list xs => "[" ++ String.intercalate ", " (pyReprList xs) ++ "]"
  | .dict xs => "\x7b" ++ String.intercalate ", " (pyReprPairs xs) ++ "\x7d"
termination_by structural v => v

def pyReprList : List PyVal → List String
  | [] => []
  | v :: rest => pyRepr v :: pyReprList rest
termination_by structural l => l

def pyReprPairs : List (String × PyVal) → List String
  | [] => []
  | (k, v) :: rest => (sq ++ k ++ sq ++ ": " ++ pyRepr v) :: pyReprPairs rest
termination_by structural l => l
end

/-- `repr` of a list of Python strings, e.g. `['a', 'b']`; used by the
error messages that embed `sorted(...)` key lists. -/
def pyReprStrList (xs : List String) : String :=
  "[" ++ String.intercalate ", " (xs.map (fun s => sq ++ s ++ sq)) ++ "]"

/-- Digits-with-underscores body of a Python integer literal: nonempty,
underscores only singly and strictly between digits. -/
def intBodyOk (cs : List Char) : Bool :=
  !cs.isEmpty
    && cs.all (fun c => c.isDigit || c = '_')
    && cs.head? ≠ Option.some '_'
    && cs.getLast? ≠ Option.some '_'
    && (cs.zip cs.tail).all (fun p => !(p.1 = '_' && p.2 = '_'))

def digitsValue (cs : List Char) : Int :=
  cs.foldl (fun acc c => if c = '_' then acc else acc * 10 + (c.toNat - 48)) 0

/-- Python `int(str)`: optional surrounding whitespace, optional sign,
digits with optional single underscores between them. -/
def intOfString (s : String) : Option Int :=
  let cs := s.toList.dropWhile Char.isWhitespace
  let cs := (cs.reverse.dropWhile Char.isWhitespace).reverse
  match cs with
  | '+' :: rest => if intBodyOk rest then Option.some (digitsValue rest) else Option.none
  | '-' :: rest => if intBodyOk rest then Option.some (-(digitsValue rest)) else Option.none
  | rest => if intBodyOk rest then Option.some (digitsValue rest) else Option.none

/-- Truncate a rational toward zero, as Python `int(float)` does. -/
def ratTrunc (q : ℚ) : Int := if 0 ≤ q then q.floor else q.ceil

/-- Python `int(v)`.  Booleans are ints; floats truncate; strings must be
integer literals; everything else raises. -/
def pyInt : PyVal → Except PyExc Int
  | .int n => .ok n
  | .bool b => .ok (if b then 1 else 0)
  | .float q => .ok (ratTrunc q)
  | .str s =>
    match intOfString s with
    | Option.some n => .ok n
    | Option.none =>
      .error (.valueError ("invalid literal for int() with base 10: " ++ sq ++ s ++ sq))
  | v => .error (.typeError ("int() argument must be a string or a number, not " ++ pyStr v))

/-- Python `len` for the values it is applied to in the parsers. -/
def pyLen : PyVal → Option Nat
  | .list xs => Option.some xs.length
  | .dict xs => Option.some xs.length
  | .str s => Option.some s.length
  | _ => Option.none

/-! ### `json` stdlib model

`json.loads` / `json.dumps` are modelled as a recursive-descent parser and
printer over `PyVal`.  The model covers the JSON subset these programs
exchange: numbers without exponents and strings without `\u` escapes; inputs
outside the subset fail to parse, which the code treats the same way as any
other `JSONDecodeError`. -/

def jsonWsChar (c : Char) : Bool :=
  c = ' ' || c = '\t' || c = '\n' || c = '\r'

def jsonWs (cs : List Char) : List Char := cs.dropWhile jsonWsChar

def jsonEscChar (c : Char) : Option Char :=
  if c = '"' then Option.some '"'
  else if c = '\\' then Option.some '\\'
  else if c = '/' then Option.some '/'
  else if c = 'n' then Option.some '\n'
  else if c = 't' then Option.some '\t'
  else if c = 'r' then Option.some '\r'
  else if c = 'b' then Option.some (Char.ofNat 8)
  else if c = 'f' then Option.some (Char.ofNat 12)
  else Option.none

/-- Body of a JSON string after the opening quote: returns the decoded
characters and the remainder after the closing quote. -/
def jsonStrBody : List Char → Option (List Char × List Char)
  | [] => Option.none
  | '"' :: rest => Option.some ([], rest)
  | '\\' :: e :: rest =>
    match jsonEscChar e, jsonStrBody rest with
    | Option.some c, Option.some (body, rem) => Option.some (c :: body, rem)
    | _, _ => Option.none
  | c :: rest =>
    match jsonStrBody rest with
    | Option.some (body, rem) => Option.some (c :: body, rem)
    | Option.none => Option.none

def jsonDigits1 (cs : List Char) : Option (List Char × List Char) :=
  let ds := cs.takeWhile Char.isDigit
  if ds.isEmpty then Option.none else Option.some (ds, cs.drop ds.length)

def digitsNat (cs : List Char) : Int :=
  cs.foldl (fun acc c => acc * 10 + (c.toNat - 48)) 0

/-- JSON number without exponent: integer or fixed-point fraction. -/
def jsonNumber (cs : List Char) : Option (PyVal × List Char) :=
  let (neg, cs') := match cs with
    | '-' :: rest => (true, rest)
    | _ => (false, cs)
  match jsonDigits1 cs' with
  | Option.none => Option.none
  | Option.some (whole, rem) =>
    match rem with
    | '.' :: rest =>
      match jsonDigits1 rest with
      | Option.none => Option.none
      | Option.some (frac, rem') =>
        let q : ℚ := (digitsNat whole : ℚ) + (digitsNat frac : ℚ) / ((10 : ℚ) ^ frac.length)
        Option.some (.float (if neg then -q else q), rem')
    | _ =>
      let n := digitsNat whole
      Option.some (.int (if neg then -n else n), rem)

mutual
def parseJsonV : Nat → List Char → Option (PyVal × List Char)
  | 0, _ => Option.none
  | Nat.succ fuel, cs =>
    match jsonWs cs with
    | 'n' :: 'u' :: 'l' :: 'l' :: rest => Option.some (.none, rest)
    | 't' :: 'r' :: 'u' :: 'e' :: rest => Option.some (.bool true, rest)
    | 'f' :: 'a' :: 'l' :: 's' :: 'e' :: rest => Option.some (.bool false, rest)
    | '"' :: rest =>
      match jsonStrBody rest with
      | Option.some (body, rem) => Option.some (.str (String.mk body), rem)
      | Option.none => Option.none
    | '[' :: rest =>
      (match jsonWs rest with
       | ']' :: rem => Option.some (.list [], rem)
       | cs' =>
         match parseJsonItems fuel cs' with
         | Option.some (items, rem) => Option.some (.list items, rem)
         | Option.none => Option.none)
    | '{' :: rest =>
      (match jsonWs rest with
       | '}' :: rem => Option.some (.dict [], rem)
       | cs' =>
         match parseJsonPairs fuel cs' with
         | Option.some (pairs, rem) => Option.some (.dict pairs, rem)
         | Option.none => Option.none)
    | cs' => jsonNumber cs'

def parseJsonItems : Nat → List Char → Option (List PyVal × List Char)
  | 0, _ => Option.none
  | Nat.succ fuel, cs =>
    match parseJsonV fuel cs with
    | Option.none => Option.none
    | Option.some (v, rem) =>
      match jsonWs rem with
      | ',' :: rest =>
        (match parseJsonItems fuel rest with
         | Option.some (items, rem') => Option.some (v :: items, rem')
         | Option.none => Option.none)
      | ']' :: rest => Option.some ([v], rest)
      | _ => Option.none

def parseJsonPairs : Nat → List Char → Option (List (String × PyVal) × List Char)
  | 0, _ => Option.none
  | Nat.succ fuel, cs =>
    match jsonWs cs with
    | '"' :: rest =>
      (match jsonStrBody rest with
       | Option.none => Option.none
       | Option.some (key, rem) =>
         match jsonWs rem with
         | ':' :: rest' =>
           (match parseJsonV fuel rest' with
            | Option.none => Option.none
            | Option.some (v, rem') =>
              match jsonWs rem' with
              | ',' :: rest'' =>
                (match parseJsonPairs fuel rest'' with
                 | Option.some (pairs, rem'') =>
                   Option.some ((String.mk key, v) :: pairs, rem'')
                 | Option.none => Option.none)
              | '}' :: rest'' => Option.some ([(String.mk key, v)], rest'')
              | _ => Option.none)
         | _ => Option.none)
    | _ => Option.none
end

/-- `json.loads`. -/
def jsonLoads (s : String) : Except PyExc PyVal :=
  match parseJsonV (s.length + 1) s.toList with
  | Option.some (v, rem) =>
    if (jsonWs rem).isEmpty then .ok v else .error (.jsonDecodeError "Extra data")
  | Option.none => .error (.jsonDecodeError "Expecting value")

def jsonQuote (s : String) : String :=
  "\"" ++ String.join (s.toList.map (fun c =>
    if c = '"' then "\\\""
    else if c = '\\' then "\\\\"
    else if c = '\n' then "\\n"
    else if c = '\t' then "\\t"
    else if c = '\r' then "\\r"
    else String.singleton c)) ++ "\""

mutual
/-- `json.dumps` with its default separators; a datetime (never reachable
from the serialized results, which carry ISO strings) raises `TypeError`
exactly as CPython does. -/
def jsonDumps : PyVal → Except PyExc String
  | .none => .ok "null"
  | .bool b => .ok (if b then "true" else "false")
  | .int n => .ok (toString n)
  | .float q => .ok (floatStr q)
  | .str s => .ok (jsonQuote s)
  | .datetime _ => .error (.typeError "Object of type datetime is not JSON serializable")
  | .list xs =>
    match jsonDumpsList xs with
    | .ok ss => .ok ("[" ++ String.intercalate ", " ss ++ "]")
    | .error e => .error e
  | .dict xs =>
    match jsonDumpsPairs xs with
    | .ok ss => .ok ("\x7b" ++ String.intercalate ", " ss ++ "\x7d")
    | .error e => .error e

def jsonDumpsList : List PyVal → Except PyExc (List String)
  | [] => .ok []
  | v :: rest =>
    match jsonDumps v, jsonDumpsList rest with
    | .ok s, .ok ss => .ok (s :: ss)
    | .error e, _ => .error e
    | _, .error e => .error e

def jsonDumpsPairs : List (String × PyVal) → Except PyExc (List String)
  | [] => .ok []
  | (k, v) :: rest =>
    match jsonDumps v, jsonDumpsPairs rest with
    | .ok s, .ok ss => .ok ((jsonQuote k ++ ": " ++ s) :: ss)
    | .error e, _ => .error e
    | _, .error e => .error e
end

/-! ### `datetime` stdlib model

`datetime.fromisoformat` is modelled as a parser for the ISO profile the
backend emits: `YYYY-MM-DD[<sep>HH:MM[:SS[.ffffff]]][±HH:MM]` with `T` or a
space as separator; fractional seconds are dropped.  Values are POSIX
seconds, with naive datetimes read as UTC (the code immediately replaces a
missing tzinfo with UTC). -/

def expectChar (c : Char) : List Char → Option (List Char)
  | c' :: rest => if c' = c then Option.some rest else Option.none
  | [] => Option.none

def parseNDigits (n : Nat) (cs : List Char) : Option (Int × List Char) :=
  let ds := cs.take n
  if ds.length = n && ds.all Char.isDigit then
    Option.some (digitsNat ds, cs.drop n)
  else Option.none

def parseHM (cs : List Char) : Option (Int × Int × List Char) := do
  let (h, cs) ← parseNDigits 2 cs
  let cs ← expectChar ':' cs
  let (mi, cs) ← parseNDigits 2 cs
  if h < 24 ∧ mi < 60 then Option.some (h, mi, cs) else Option.none

def fromIsoChars (cs : List Char) : Option Int := do
  let (y, cs) ← parseNDigits 4 cs
  let cs ← expectChar '-' cs
  let (mo, cs) ← parseNDigits 2 cs
  let cs ← expectChar '-' cs
  let (d, cs) ← parseNDigits 2 cs
  if ¬(1 ≤ mo ∧ mo ≤ 12 ∧ 1 ≤ d ∧ d ≤ 31) then Option.none else
  let base := daysFromCivil y mo d * 86400
  match cs with
  | [] => Option.some base
  | sep :: rest =>
    if ¬(sep = 'T' ∨ sep = ' ') then Option.none else do
    let (h, mi, cs) ← parseHM rest
    let (sec, cs) ←
      match cs with
      | ':' :: rest' => do
        let (sec, cs') ← parseNDigits 2 rest'
        if sec ≥ 60 then Option.none else
        match cs' with
        | '.' :: rest'' =>
          (match jsonDigits1 rest'' with
           | Option.some (_, cs'') => Option.some (sec, cs'')
           | Option.none => Option.none)
        | _ => Option.some (sec, cs')
      | _ => Option.some ((0 : Int), cs)
    let t := base + h * 3600 + mi * 60 + sec
    match cs with
    | [] => Option.some t
    | '+' :: rest' => do
      let (oh, om, cs') ← parseHM rest'
      if cs'.isEmpty then Option.some (t - oh * 3600 - om * 60) else Option.none
    | '-' :: rest' => do
      let (oh, om, cs') ← parseHM rest'
      if cs'.isEmpty then Option.some (t + oh * 3600 + om * 60) else Option.none
    | _ => Option.none

/-- `value.replace("Z", "+00:00")`. -/
def replaceZ (s : String) : String :=
  String.mk (s.toList.foldr
    (fun c acc => if c = 'Z' then '+' :: '0' :: '0' :: ':' :: '0' :: '0' :: acc else c :: acc) [])

def fromisoformat (s : String) : Option Int := fromIsoChars s.toList

/-- `SentinelClient._parse_datetime`: `None` and unparseable or foreign
values fall back to the epoch start; datetimes pass through. -/
def parseDatetimeVal : PyVal → Int
  | .datetime t => t
  | .str s =>
    match fromisoformat (replaceZ s) with
    | Option.some t => t
    | Option.none => 0
  | _ => 0

def monthAbbrev (m : Int) : String :=
  if m = 1 then "Jan" else if m = 2 then "Feb" else if m = 3 then "Mar"
  else if m = 4 then "Apr" else if m = 5 then "May" else if m = 6 then "Jun"
  else if m = 7 then "Jul" else if m = 8 then "Aug" else if m = 9 then "Sep"
  else if m = 10 then "Oct" else if m = 11 then "Nov" else "Dec"

/-- `dt.strftime('%I:%M %p').lstrip('0')` — 12-hour clock with the single
possible leading zero stripped. -/
def hour12Clock (t : Int) : String :=
  let s := secondsOfDay t
  let h := s.tdiv 3600
  let hr12 := if h.emod 12 = 0 then 12 else h.emod 12
  let body := (if hr12 < 10 then toString hr12 else pad2 hr12) ++ ":" ++
    pad2 ((s.tdiv 60).emod 60) ++ " " ++ (if h < 12 then "AM" else "PM")
  body

/-- `models.format_relative_time`, with "now" made an explicit argument. -/
def formatRelativeTime (now dt : Int) : String :=
  let seconds := now - dt
  if seconds < 0 then "just now"
  else if seconds < 60 then "just now"
  else if seconds < 3600 then
    let minutes := seconds.tdiv 60
    toString minutes ++ " minute" ++ (if minutes ≠ 1 then "s" else "") ++ " ago"
  else if seconds < 86400 then
    let hours := seconds.tdiv 3600
    toString hours ++ " hour" ++ (if hours ≠ 1 then "s" else "") ++ " ago"
  else if seconds < 172800 then
    "yesterday at " ++ hour12Clock dt
  else if seconds < 604800 then
    let days := seconds.tdiv 86400
    toString days ++ " days ago"
  else
    let c := civilFromDays (epochDays dt)
    monthAbbrev c.2.1 ++ " " ++ pad2 c.2.2 ++ ", " ++ pad4 c.1

/-! ### Query template registry (`src/queries/__init__.py` and the four
domain template modules) -/

/-- Sentinel has exactly four severity levels, totally ordered. -/
def SEVERITY_ORDER : List String := ["Informational", "Low", "Medium", "High"]

/-- `SEVERITY_ORDER.index(min_severity)` with the `ValueError` for an
unknown (or non-string) argument caught and defaulted to index 0. -/
def severityIndex (min_severity : PyVal) : Nat :=
  match min_severity with
  | .str s =>
    match SEVERITY_ORDER.findIdx? (· = s) with
    | Option.some i => i
    | Option.none => 0
  | _ => 0

/-- The ordered subset of severity levels at or above the threshold. -/
def severityIncluded (min_severity : PyVal) : List String :=
  SEVERITY_ORDER.drop (severityIndex min_severity)

/-- `queries.severity_filter`: KQL-safe comma-separated quoted severities at
or above the threshold. -/
def severityFilter (min_severity : PyVal) : String :=
  String.intercalate "," ((severityIncluded min_severity).map (fun s => sq ++ s ++ sq))

/-- A time window: `timedelta` as seconds plus the KQL `ago()` token. -/
structure TimeWindow where
  timespan : Int
  kql_ago : String
deriving DecidableEq, Repr

def TIME_WINDOWS : List (String × TimeWindow) :=
  [("last_1h", ⟨3600, "1h"⟩),
   ("last_24h", ⟨86400, "24h"⟩),
   ("last_3d", ⟨259200, "3d"⟩),
   ("last_7d", ⟨604800, "7d"⟩),
   ("last_14d", ⟨1209600, "14d"⟩),
   ("last_30d", ⟨2592000, "30d"⟩)]

def timeWindowKeys : List String := TIME_WINDOWS.map Prod.fst

def timeWindowGet (key : String) : TimeWindow :=
  match TIME_WINDOWS.lookup key with
  | Option.some w => w
  | Option.none => ⟨0, ""⟩

def MAX_LIMITS : List (String × Int) :=
  [("incident_list", 100),
   ("alert_list", 100),
   ("incident_detail_alerts", 200),
   ("alert_trend", 365),
   ("top_entities", 50)]

def maxLimit (key : String) : Int :=
  match MAX_LIMITS.lookup key with
  | Option.some n => n
  | Option.none => 0

def TEMPLATE_TIMEOUTS : List (String × Int) :=
  [("list_incidents", 60),
   ("get_incident_by_number", 60),
   ("get_incident_by_name", 60),
   ("list_alerts", 60),
   ("get_incident_alerts", 60),
   ("get_incident_entities", 60),
   ("alert_trend", 180),
   ("alert_trend_total", 180),
   ("top_entities", 180)]

/-- `TEMPLATE_TIMEOUTS.get(name, default)`. -/
def templateTimeout (name : String) (default : Int) : Int :=
  match TEMPLATE_TIMEOUTS.lookup name with
  | Option.some n => n
  | Option.none => default

/-- The nine KQL templates, verbatim from the domain modules, in the merge
order of `TEMPLATE_REGISTRY`. -/
def TEMPLATE_REGISTRY : List (String × String) :=
  [("list_incidents", "
        SecurityIncident
        | where TimeGenerated > ago({time_range})
        | summarize arg_max(LastModifiedTime, *) by IncidentNumber
        | where Severity in ({severity_filter})
        | project IncidentNumber, Title, Severity, Status, CreatedTime,
                  LastModifiedTime, Owner, AlertIds, Description,
                  FirstActivityTime, LastActivityTime
        | order by CreatedTime desc
        | take {limit}
    "),
   ("get_incident_by_number", "
        SecurityIncident
        | where IncidentNumber == {incident_number}
        | summarize arg_max(LastModifiedTime, *) by IncidentNumber
        | project IncidentNumber, Title, Severity, Status, Description,
                  CreatedTime, LastModifiedTime, ClosedTime, Owner,
                  AlertIds, Labels, Classification, ClassificationReason,
                  FirstActivityTime, LastActivityTime, IncidentUrl
    "),
   ("get_incident_by_name", "
        SecurityIncident
        | summarize arg_max(LastModifiedTime, *) by IncidentNumber
        | where Title contains \"{incident_name}\"
        | project IncidentNumber, Title, Severity, Status, Description,
                  CreatedTime, LastModifiedTime, ClosedTime, Owner,
                  AlertIds, Labels, Classification, ClassificationReason,
                  FirstActivityTime, LastActivityTime, IncidentUrl
        | take {limit}
    "),
   ("get_incident_alerts", "
        let incident_alerts = SecurityIncident
            | where IncidentNumber == {incident_number}
            | summarize arg_max(LastModifiedTime, *) by IncidentNumber
            | mv-expand AlertId = AlertIds
            | project tostring(AlertId);
        SecurityAlert
        | where SystemAlertId in (incident_alerts)
        | project AlertName, DisplayName, AlertSeverity, Status,
                  TimeGenerated, Description, Tactics, Techniques,
                  ProviderName, CompromisedEntity, SystemAlertId
    "),
   ("get_incident_entities", "
        let incident_alerts = SecurityIncident
            | where IncidentNumber == {incident_number}
            | summarize arg_max(LastModifiedTime, *) by IncidentNumber
            | mv-expand AlertId = AlertIds
            | project tostring(AlertId);
        SecurityAlert
        | where SystemAlertId in (incident_alerts)
        | extend EntitiesParsed = parse_json(Entities)
        | mv-expand Entity = EntitiesParsed
        | extend EntityType = tostring(Entity.Type),
                 EntityName = case(
                     Entity.Type == \"account\", tostring(Entity.Name),
                     Entity.Type == \"ip\", tostring(Entity.Address),
                     Entity.Type == \"host\", tostring(Entity.HostName),
                     Entity.Type == \"url\", tostring(Entity.Url),
                     Entity.Type == \"file\", tostring(Entity.Name),
                     tostring(Entity.Name)
                 )
        | where isnotempty(EntityName)
        | distinct EntityType, EntityName
    "),
   ("list_alerts", "
        SecurityAlert
        | where TimeGenerated > ago({time_range})
        | where AlertSeverity in ({severity_filter})
        | project AlertName, DisplayName, AlertSeverity, Status,
                  TimeGenerated, Description, Tactics, Techniques,
                  ProviderName, CompromisedEntity, SystemAlertId
        | order by TimeGenerated desc
        | take {limit}
    "),
   ("alert_trend", "
        SecurityAlert
        | where TimeGenerated > ago({time_range})
        | where AlertSeverity in ({severity_filter})
        | summarize Count=count() by bin(TimeGenerated, {bin_size}), AlertSeverity
        | order by TimeGenerated asc
    "),
   ("alert_trend_total", "
        SecurityAlert
        | where TimeGenerated > ago({time_range})
        | where AlertSeverity in ({severity_filter})
        | summarize Count=count() by bin(TimeGenerated, {bin_size})
        | order by TimeGenerated asc
    "),
   ("top_entities", "
        SecurityAlert
        | where TimeGenerated > ago({time_range})
        | where AlertSeverity in ({severity_filter})
        | extend EntitiesParsed = parse_json(Entities)
        | mv-expand Entity = EntitiesParsed
        | extend EntityType = tostring(Entity.Type),
                 EntityName = case(
                     Entity.Type == \"account\", tostring(Entity.Name),
                     Entity.Type == \"ip\", tostring(Entity.Address),
                     Entity.Type == \"host\", tostring(Entity.HostName),
                     tostring(Entity.Name)
                 )
        | where isnotempty(EntityName)
        | where EntityType in (\"account\", \"ip\", \"host\")
        | summarize AlertCount=count(), Severities=make_set(AlertSeverity)
            by EntityType, EntityName
        | order by AlertCount desc
        | take {limit}
    ")]

def registryKeys : List String := TEMPLATE_REGISTRY.map Prod.fst

def registryGet (name : String) : String :=
  match TEMPLATE_REGISTRY.lookup name with
  | Option.some t => t
  | Option.none => ""

/-- A `\w` character of the placeholder regex. -/
def wordChar (c : Char) : Bool := c.isAlphanum || c = '_'

/-- `re.findall(r"\x7b(\w+)\x7d", template)`: non-overlapping matches,
scanning left to right (fuel = remaining length). -/
def findBraceTokens (fuel : Nat) (cs : List Char) : List String :=
  match fuel, cs with
  | 0, _ => []
  | _, [] => []
  | Nat.succ f, '{' :: rest =>
    let w := rest.takeWhile wordChar
    (match rest.drop w.length with
     | '}' :: rem =>
       if w.isEmpty then findBraceTokens f rest
       else String.mk w :: findBraceTokens f rem
     | _ => findBraceTokens f rest)
  | Nat.succ f, _ :: rest => findBraceTokens f rest

/-- `set(re.findall(...))` for a template, deduplicated. -/
def placeholdersOf (t : String) : List String :=
  (findBraceTokens (t.length + 1) t.toList).dedup

/-- Code-point lexicographic comparison, structurally recursive so that it
evaluates by kernel reduction (Python string comparison is exactly
code-point lexicographic). -/
def charListLe : List Char → List Char → Bool
  | [], _ => true
  | _ :: _, [] => false
  | a :: as, b :: bs => if a < b then true else if b < a then false else charListLe as bs

def strLe (a b : String) : Bool := charListLe a.toList b.toList

def insertSorted (s : String) : List String → List String
  | [] => [s]
  | t :: rest => if strLe s t then s :: t :: rest else t :: insertSorted s rest

/-- `sorted(...)` on a list of strings (lexicographic, as in Python). -/
def sortStrs (xs : List String) : List String := xs.foldr insertSorted []

def paramKeys (params : List (String × PyVal)) : List String := params.map Prod.fst

/-- `sorted(placeholders - set(params.keys()))`. -/
def missingOf (t : String) (params : List (String × PyVal)) : List String :=
  sortStrs ((placeholdersOf t).filter (fun p => decide (p ∉ paramKeys params)))

/-- One lexed token of a `str.format` template: a literal character, an
escaped brace, or a replacement field. -/
inductive FmtTok where
  | lit : Char → FmtTok
  | esc : Char → FmtTok
  | field : String → FmtTok
deriving DecidableEq, Repr

/-- The next `str.format` token of the template: `.error ()` models the
`ValueError` CPython raises on a stray or unterminated brace. -/
def nextTok : List Char → Except Unit (Option (FmtTok × List Char))
  | [] => .ok Option.none
  | '{' :: '{' :: rest => .ok (Option.some (.esc '{', rest))
  | '}' :: '}' :: rest => .ok (Option.some (.esc '}', rest))
  | '}' :: _ => .error ()
  | '{' :: rest =>
    let nameChars := rest.takeWhile (· ≠ '}')
    (match rest.drop nameChars.length with
     | '}' :: rem => .ok (Option.some (.field (String.mk nameChars), rem))
     | _ => .error ())
  | c :: rest => .ok (Option.some (.lit c, rest))

/-- `template.format(**params)`: replaces `\x7bname\x7d` by `str(value)`,
doubled braces collapse to literals, a missing key raises `KeyError` and a
stray brace `ValueError` (fuel = remaining length, which each token
strictly consumes). -/
def pyFormat (fuel : Nat) (cs : List Char) (params : List (String × PyVal)) :
    Except PyExc (List Char) :=
  match fuel with
  | 0 => .ok []
  | Nat.succ f =>
    match nextTok cs with
    | .error () => .error (.valueError "Single brace encountered in format string")
    | .ok Option.none => .ok []
    | .ok (Option.some (.lit c, rest)) =>
      (match pyFormat f rest params with
       | .ok out => .ok (c :: out)
       | .error e => .error e)
    | .ok (Option.some (.esc c, rest)) =>
      (match pyFormat f rest params with
       | .ok out => .ok (c :: out)
       | .error e => .error e)
    | .ok (Option.some (.field name, rest)) =>
      (match params.lookup name with
       | Option.none => .error (.keyError name)
       | Option.some v =>
         match pyFormat f rest params with
         | .ok out => .ok ((pyStr v).toList ++ out)
         | .error e => .error e)

/-- The replacement-field names `str.format` would look up, in order;
`none` when the template has a stray brace.  Mirrors `pyFormat` on the
token stream, independent of parameter values. -/
def formatNames (fuel : Nat) (cs : List Char) : Option (List String) :=
  match fuel with
  | 0 => Option.some []
  | Nat.succ f =>
    match nextTok cs with
    | .error () => Option.none
    | .ok Option.none => Option.some []
    | .ok (Option.some (.lit _, rest)) => formatNames f rest
    | .ok (Option.some (.esc _, rest)) => formatNames f rest
    | .ok (Option.some (.field name, rest)) =>
      (match formatNames f rest with
       | Option.some ns => Option.some (name :: ns)
       | Option.none => Option.none)

/-- `queries.build_query`: validate the template name, report the full
sorted set of missing placeholders, then substitute. -/
def buildQuery (name : String) (params : List (String × PyVal)) : Except PyExc String :=
  if ¬(name ∈ registryKeys) then
    .error (.valueError ("Unknown template: " ++ sq ++ name ++ sq ++ ". Available: " ++
      pyReprStrList (sortStrs registryKeys)))
  else
    let t := registryGet name
    let missing := missingOf t params
    if missing ≠ [] then
      .error (.valueError ("Missing required parameters for " ++ sq ++ name ++ sq ++ ": " ++
        pyReprStrList missing))
    else
      match pyFormat (t.length + 1) t.toList params with
      | .ok out => .ok (String.mk out)
      | .error e => .error e

/-! ### Data models (`src/models.py`) and projections (`src/projections.py`) -/

structure QueryMetadata where
  total : Int
  query_ms : ℚ
  truncated : Bool
  partial_error : Option String
deriving DecidableEq, Repr

structure QueryError where
  code : String
  message : String
  retry_possible : Bool
deriving DecidableEq, Repr

structure QueryResult (α : Type) where
  metadata : QueryMetadata
  results : List α

/-- The value of a public query method: `QueryResult` or `QueryError`,
never a raised exception (exceptions are tracked separately via `Except`). -/
inductive SCR (α : Type) where
  | ok : QueryResult α → SCR α
  | err : QueryError → SCR α

/-- `models.Incident`.  `owner` and the label entries stay `PyVal`: the
defensive JSON decoding can surface non-string values unchanged.  Datetimes
are POSIX seconds; the three detail-only datetimes are `Option` because list
view leaves them at the dataclass default `None`. -/
structure Incident where
  number : Int
  title : String
  severity : String
  status : String
  created_time : Int
  last_modified_time : Int
  description : String
  owner : PyVal
  alert_count : Int
  entity_count : Int
  closed_time : Option Int
  first_activity_time : Option Int
  last_activity_time : Option Int
  incident_url : String
  classification : String
  classification_reason : String
  labels : Option (List PyVal)
  created_time_ago : String
  last_modified_time_ago : String

def optDt : Option Int → PyVal
  | Option.some t => .str (isoformat t)
  | Option.none => .none

/-- `Incident.to_dict`: `asdict` in field order with datetimes ISO-ified. -/
def Incident.to_dict (i : Incident) : List (String × PyVal) :=
  [("number", .int i.number),
   ("title", .str i.title),
   ("severity", .str i.severity),
   ("status", .str i.status),
   ("created_time", .str (isoformat i.created_time)),
   ("last_modified_time", .str (isoformat i.last_modified_time)),
   ("description", .str i.description),
   ("owner", i.owner),
   ("alert_count", .int i.alert_count),
   ("entity_count", .int i.entity_count),
   ("closed_time", optDt i.closed_time),
   ("first_activity_time", optDt i.first_activity_time),
   ("last_activity_time", optDt i.last_activity_time),
   ("incident_url", .str i.incident_url),
   ("classification", .str i.classification),
   ("classification_reason", .str i.classification_reason),
   ("labels", match i.labels with
     | Option.some ls => .list ls
     | Option.none => .none),
   ("created_time_ago", .str i.created_time_ago),
   ("last_modified_time_ago", .str i.last_modified_time_ago)]

/-- `models.Alert` (severity comes from `AlertSeverity`, not `Severity`). -/
structure Alert where
  name : String
  display_name : String
  severity : String
  status : String
  time_generated : Int
  description : String
  tactics : String
  techniques : String
  provider_name : String
  compromised_entity : String
  system_alert_id : String
  time_generated_ago : String

def Alert.to_dict (a : Alert) : List (String × PyVal) :=
  [("name", .str a.name),
   ("display_name", .str a.display_name),
   ("severity", .str a.severity),
   ("status", .str a.status),
   ("time_generated", .str (isoformat a.time_generated)),
   ("description", .str a.description),
   ("tactics", .str a.tactics),
   ("techniques", .str a.techniques),
   ("provider_name", .str a.provider_name),
   ("compromised_entity", .str a.compromised_entity),
   ("system_alert_id", .str a.system_alert_id),
   ("time_generated_ago", .str a.time_generated_ago)]

structure TrendPoint where
  timestamp : Int
  count : Int
  severity : String
deriving DecidableEq, Repr

def TrendPoint.to_dict (p : TrendPoint) : List (String × PyVal) :=
  [("timestamp", .str (isoformat p.timestamp)),
   ("count", .int p.count),
   ("severity", .str p.severity)]

structure EntityCount where
  entity_type : String
  entity_name : String
  count : Int
deriving DecidableEq, Repr

def EntityCount.to_dict (e : EntityCount) : List (String × PyVal) :=
  [("entity_type", .str e.entity_type),
   ("entity_name", .str e.entity_name),
   ("count", .int e.count)]

def PROJECTIONS : List (String × List String) :=
  [("incident_list",
    ["number", "title", "severity", "status", "created_time", "alert_count",
     "entity_count", "last_modified_time", "created_time_ago",
     "last_modified_time_ago"]),
   ("incident_detail",
    ["number", "title", "severity", "status", "description", "created_time",
     "last_modified_time", "closed_time", "owner", "alert_count",
     "entity_count", "labels", "classification", "classification_reason",
     "first_activity_time", "last_activity_time", "incident_url",
     "created_time_ago", "last_modified_time_ago"]),
   ("alert_list",
    ["name", "display_name", "severity", "status", "time_generated",
     "tactics", "provider_name", "compromised_entity", "time_generated_ago"])]

/-- `projections.apply_projection`: allow-list filter; an unknown view is a
no-op. -/
def applyProjection (data : List (String × PyVal)) (view : String) :
    List (String × PyVal) :=
  match PROJECTIONS.lookup view with
  | Option.none => data
  | Option.some allowed => data.filter (fun kv => kv.1 ∈ allowed)

/-! ### Backend model and `SentinelClient._execute_query` -/

/-- A result table from the logs backend; column objects are reduced to
their names (the code only reads `col.name` / `str(col)`). -/
structure LogsTable where
  columns : List String
  rows : List (List PyVal)

/-- `LogsQueryStatus`: `SUCCESS`, `PARTIAL`, or anything unexpected
(carried as the `str()` of the status object). -/
inductive RespStatus where
  | success : RespStatus
  | incomplete : RespStatus
  | unexpected : String → RespStatus

structure PartialErrInfo where
  code : String
  message : String

/-- The azure-monitor-query response object, reduced to the fields the code
reads.  `statistics` is the optional `query.executionTime` in seconds; a
missing/falsy/malformed statistics object is `none` (the code defaults the
latency to 0 in every such case). -/
structure LogsResponse where
  status : RespStatus
  tables : List LogsTable
  partial_data : List LogsTable
  partial_error : Option PartialErrInfo
  statistics : Option ℚ

/-- One backend invocation: a response, a raised `HttpResponseError` (with
the optional `response.status_code` and `error.code` the handler reads), or
any other raised exception. -/
inductive BackendOutcome where
  | respond : LogsResponse → BackendOutcome
  | raiseHttp : Option Int → Option String → String → BackendOutcome
  | raiseOther : String → BackendOutcome

/-- The backend collaborator: what `query_workspace` does for each rendered
query string (timespan and timeout do not influence this model). -/
def Backend := String → BackendOutcome

/-- Outcome of `_execute_query`: the parsed 4-tuple or a `QueryError` —
never a raised exception, every handler in the method catches. -/
inductive ExecResult where
  | rows : List LogsTable → Bool → Option String → ℚ → ExecResult
  | err : QueryError → ExecResult

def statsMs : Option ℚ → ℚ
  | Option.none => 0
  | Option.some t => t * 1000

/-- HTTP status codes the except-handler marks retryable. -/
def transientStatusCodes : List Int := [429, 500, 502, 503, 504]

/-- `SentinelClient._execute_query`. -/
def executeQuery (backend : Backend) (query : String) : ExecResult :=
  match backend query with
  | .respond r =>
    match r.status with
    | .success => .rows r.tables false Option.none (statsMs r.statistics)
    | .incomplete =>
      let msg := match r.partial_error with
        | Option.some e => e.code ++ ": " ++ e.message
        | Option.none => "Partial results"
      .rows r.partial_data true (Option.some msg) (statsMs r.statistics)
    | .unexpected s =>
      .err ⟨"unexpected_status", "Unexpected query status: " ++ s, false⟩
  | .raiseHttp sc ec msg =>
    let status := match sc with
      | Option.some n => n
      | Option.none => 0
    let code := match ec with
      | Option.some c => c
      | Option.none => "http_error"
    .err ⟨code, msg.take 500, decide (status ∈ transientStatusCodes)⟩
  | .raiseOther msg => .err ⟨"unknown", msg.take 500, false⟩

/-! ### Row parsing (`SentinelClient._parse_*`) -/

/-- `dict(zip(columns, row))`; `zip` truncates to the shorter side. -/
def rowDict (cols : List String) (row : List PyVal) : List (String × PyVal) :=
  cols.zip row

/-- The `Owner` field: optionally JSON-encoded; decode failures and foreign
types silently yield the empty string. -/
def parseOwner (raw : PyVal) : PyVal :=
  if pyTruthy raw then
    match raw with
    | .str s =>
      (match jsonLoads s with
       | .ok (.dict d) => dictGetD d "assignedTo" (.str "")
       | .ok _ => .str ""
       | .error _ => .str "")
    | .dict d => dictGetD d "assignedTo" (.str "")
    | _ => .str ""
  else .str ""

/-- The `AlertIds` field: a list or a JSON-encoded list; anything else
counts zero alerts. -/
def parseAlertCount (raw : PyVal) : Int :=
  if pyTruthy raw then
    match raw with
    | .list xs => xs.length
    | .str s =>
      (match jsonLoads s with
       | .ok (.list xs) => xs.length
       | .ok _ => 0
       | .error _ => 0)
    | _ => 0
  else 0

/-- One label entry: `lbl.get("labelName", str(lbl))` for dicts, else
`str(lbl)`. -/
def parseLabelVal (lbl : PyVal) : PyVal :=
  match lbl with
  | .dict d => dictGetD d "labelName" (.str (pyStr lbl))
  | _ => .str (pyStr lbl)

/-- The `Labels` field (detail view only). -/
def parseLabels (raw : PyVal) : Option (List PyVal) :=
  if pyTruthy raw then
    match raw with
    | .list xs => Option.some (xs.map parseLabelVal)
    | .str s =>
      (match jsonLoads s with
       | .ok (.list xs) => Option.some (xs.map parseLabelVal)
       | .ok _ => Option.none
       | .error _ => Option.none)
    | _ => Option.none
  else Option.none

/-- `str(row_dict.get(key, "") or "")` — the falsy-guard pattern used for
optional text columns. -/
def strOrEmpty (rd : List (String × PyVal)) (key : String) : String :=
  let v := dictGetD rd key (.str "")
  if pyTruthy v then pyStr v else ""

/-- `str(row_dict.get(key, ""))` — no falsy guard (`None` renders as
"None"). -/
def strField (rd : List (String × PyVal)) (key : String) : String :=
  pyStr (dictGetD rd key (.str ""))

/-- One row of `_parse_incidents`; `int(...)` on `IncidentNumber` is the
only fallible step. -/
def parseIncidentRow (now : Int) (cols : List String) (row : List PyVal)
    (is_detail : Bool) : Except PyExc Incident :=
  let rd := rowDict cols row
  match pyInt (dictGetD rd "IncidentNumber" (.int 0)) with
  | .error e => .error e
  | .ok num =>
    let created := parseDatetimeVal (dictGetD rd "CreatedTime" .none)
    let lastmod := parseDatetimeVal (dictGetD rd "LastModifiedTime" .none)
    .ok {
      number := num
      title := strField rd "Title"
      severity := strField rd "Severity"
      status := strField rd "Status"
      created_time := created
      last_modified_time := lastmod
      description := strOrEmpty rd "Description"
      owner := parseOwner (dictGetD rd "Owner" (.str ""))
      alert_count := parseAlertCount (dictGetD rd "AlertIds" (.str ""))
      entity_count := 0
      closed_time :=
        if is_detail then Option.some (parseDatetimeVal (dictGetD rd "ClosedTime" .none))
        else Option.none
      first_activity_time :=
        if is_detail then Option.some (parseDatetimeVal (dictGetD rd "FirstActivityTime" .none))
        else Option.none
      last_activity_time :=
        if is_detail then Option.some (parseDatetimeVal (dictGetD rd "LastActivityTime" .none))
        else Option.none
      incident_url := if is_detail then strOrEmpty rd "IncidentUrl" else ""
      classification := if is_detail then strOrEmpty rd "Classification" else ""
      classification_reason := if is_detail then strOrEmpty rd "ClassificationReason" else ""
      labels := if is_detail then parseLabels (dictGetD rd "Labels" (.str "")) else Option.none
      created_time_ago := formatRelativeTime now created
      last_modified_time_ago := formatRelativeTime now lastmod }

def parseIncidentRows (now : Int) (cols : List String) (is_detail : Bool) :
    List (List PyVal) → Except PyExc (List Incident)
  | [] => .ok []
  | row :: rest =>
    match parseIncidentRow now cols row is_detail,
          parseIncidentRows now cols is_detail rest with
    | .ok i, .ok is => .ok (i :: is)
    | .error e, _ => .error e
    | _, .error e => .error e

/-- `SentinelClient._parse_incidents`: only the first table is read; an
empty table list parses to no incidents. -/
def parseIncidents (now : Int) (tables : List LogsTable) (is_detail : Bool) :
    Except PyExc (List Incident) :=
  match tables with
  | [] => .ok []
  | t :: _ => parseIncidentRows now t.columns is_detail t.rows

/-- One row of `_parse_alerts` (total: every field is `str(...)`-coerced). -/
def parseAlertRow (now : Int) (cols : List String) (row : List PyVal) : Alert :=
  let rd := rowDict cols row
  let tg := parseDatetimeVal (dictGetD rd "TimeGenerated" .none)
  { name := strField rd "AlertName"
    display_name := strField rd "DisplayName"
    severity := strField rd "AlertSeverity"
    status := strField rd "Status"
    time_generated := tg
    description := strOrEmpty rd "Description"
    tactics := strOrEmpty rd "Tactics"
    techniques := strOrEmpty rd "Techniques"
    provider_name := strOrEmpty rd "ProviderName"
    compromised_entity := strOrEmpty rd "CompromisedEntity"
    system_alert_id := strOrEmpty rd "SystemAlertId"
    time_generated_ago := formatRelativeTime now tg }

def parseAlerts (now : Int) (tables : List LogsTable) : List Alert :=
  match tables with
  | [] => []
  | t :: _ => t.rows.map (parseAlertRow now t.columns)

/-- One row of `_parse_entities`: a plain two-field dict. -/
def parseEntityRow (cols : List String) (row : List PyVal) : List (String × PyVal) :=
  let rd := rowDict cols row
  [("entity_type", .str (strField rd "EntityType")),
   ("entity_name", .str (strField rd "EntityName"))]

def parseEntities (tables : List LogsTable) : List (List (String × PyVal)) :=
  match tables with
  | [] => []
  | t :: _ => t.rows.map (parseEntityRow t.columns)

/-- One row of `_parse_trend_points`; `int(...)` on `Count` can raise. -/
def parseTrendRow (cols : List String) (row : List PyVal) : Except PyExc TrendPoint :=
  let rd := rowDict cols row
  match pyInt (dictGetD rd "Count" (.int 0)) with
  | .error e => .error e
  | .ok c =>
    .ok { timestamp := parseDatetimeVal (dictGetD rd "TimeGenerated" .none)
          count := c
          severity := strField rd "AlertSeverity" }

def parseTrendRows (cols : List String) :
    List (List PyVal) → Except PyExc (List TrendPoint)
  | [] => .ok []
  | row :: rest =>
    match parseTrendRow cols row, parseTrendRows cols rest with
    | .ok p, .ok ps => .ok (p :: ps)
    | .error e, _ => .error e
    | _, .error e => .error e

def parseTrendPoints (tables : List LogsTable) : Except PyExc (List TrendPoint) :=
  match tables with
  | [] => .ok []
  | t :: _ => parseTrendRows t.columns t.rows

/-- One row of `_parse_entity_counts`; `int(...)` on `AlertCount` can
raise. -/
def parseEntityCountRow (cols : List String) (row : List PyVal) :
    Except PyExc EntityCount :=
  let rd := rowDict cols row
  match pyInt (dictGetD rd "AlertCount" (.int 0)) with
  | .error e => .error e
  | .ok c =>
    .ok { entity_type := strField rd "EntityType"
          entity_name := strField rd "EntityName"
          count := c }

def parseEntityCountRows (cols : List String) :
    List (List PyVal) → Except PyExc (List EntityCount)
  | [] => .ok []
  | row :: rest =>
    match parseEntityCountRow cols row, parseEntityCountRows cols rest with
    | .ok p, .ok ps => .ok (p :: ps)
    | .error e, _ => .error e
    | _, .error e => .error e

def parseEntityCounts (tables : List LogsTable) : Except PyExc (List EntityCount) :=
  match tables with
  | [] => .ok []
  | t :: _ => parseEntityCountRows t.columns t.rows

/-! ### Public query operations (`SentinelClient.query_* / get_*`)

Each operation takes the backend collaborator and "now" explicitly, and
returns the `Except`-tracked outcome together with the ordered list of KQL
queries it actually sent — the observable for "never reaches the backend".
Arguments arrive as `PyVal` because they flow in from `json.loads`-parsed
tool arguments without re-validation. -/

/-- Python `min(v, m)` with an `int` bound: returns the untouched smaller
operand; a non-numeric left operand raises `TypeError`. -/
def pyMin (v : PyVal) (m : Int) : Except PyExc PyVal :=
  match v with
  | .int n => .ok (if m < n then .int m else .int n)
  | .bool b => .ok (if m < (if b then 1 else 0) then .int m else .bool b)
  | .float q => .ok (if (m : ℚ) < q then .int m else .float q)
  | _ => .error (.typeError "unsupported operand types for comparison")

/-- The valid-key test `time_window in TIME_WINDOWS`.  Python's `in` on a
dict hashes the left operand first, so an unhashable `list` or `dict`
argument raises `TypeError` instead of taking the invalid-window branch;
every hashable non-key (numbers, `None`, datetimes, unregistered strings)
tests negative, and only an exactly matching string key passes. -/
def timeWindowKey? (tw : PyVal) : Except PyExc (Option String) :=
  match tw with
  | .list _ => .error (.typeError ("unhashable type: " ++ sq ++ "list" ++ sq))
  | .dict _ => .error (.typeError ("unhashable type: " ++ sq ++ "dict" ++ sq))
  | .str s => .ok (if s ∈ timeWindowKeys then Option.some s else Option.none)
  | _ => .ok Option.none

/-- The non-retryable error every windowed operation returns for an
unregistered time-window key. -/
def invalidTimeWindow (tw : PyVal) : QueryError :=
  ⟨"invalid_time_window",
   "Unknown time window: " ++ sq ++ pyStr tw ++ sq ++ ". Valid: " ++
     pyReprStrList (sortStrs timeWindowKeys),
   false⟩

/-- `SentinelClient.query_incidents`. -/
def queryIncidents (backend : Backend) (now : Int) (tw sev lim : PyVal) :
    Except PyExc (SCR (List (String × PyVal))) × List String :=
  match timeWindowKey? tw with
  | .error e => (.error e, [])
  | .ok Option.none => (.ok (.err (invalidTimeWindow tw)), [])
  | .ok (Option.some key) =>
    match pyMin lim (maxLimit "incident_list") with
    | .error e => (.error e, [])
    | .ok lim' =>
      let w := timeWindowGet key
      match buildQuery "list_incidents"
          [("time_range", .str w.kql_ago),
           ("severity_filter", .str (severityFilter sev)),
           ("limit", lim')] with
      | .error e => (.error e, [])
      | .ok q =>
        match executeQuery backend q with
        | .err qe => (.ok (.err qe), [q])
        | .rows tables trunc perr ms =>
          match parseIncidents now tables false with
          | .error e => (.error e, [q])
          | .ok incs =>
            let projected := incs.map (fun i => applyProjection i.to_dict "incident_list")
            (.ok (.ok ⟨⟨projected.length, ms, trunc, perr⟩, projected⟩), [q])

/-- `SentinelClient.query_alerts`. -/
def queryAlerts (backend : Backend) (now : Int) (tw sev lim : PyVal) :
    Except PyExc (SCR (List (String × PyVal))) × List String :=
  match timeWindowKey? tw with
  | .error e => (.error e, [])
  | .ok Option.none => (.ok (.err (invalidTimeWindow tw)), [])
  | .ok (Option.some key) =>
    match pyMin lim (maxLimit "alert_list") with
    | .error e => (.error e, [])
    | .ok lim' =>
      let w := timeWindowGet key
      match buildQuery "list_alerts"
          [("time_range", .str w.kql_ago),
           ("severity_filter", .str (severityFilter sev)),
           ("limit", lim')] with
      | .error e => (.error e, [])
      | .ok q =>
        match executeQuery backend q with
        | .err qe => (.ok (.err qe), [q])
        | .rows tables trunc perr ms =>
          let alerts := parseAlerts now tables
          let projected := alerts.map (fun a => applyProjection a.to_dict "alert_list")
          (.ok (.ok ⟨⟨projected.length, ms, trunc, perr⟩, projected⟩), [q])

/-- `_BIN_SIZE_MAP.get(time_window, "1d")`. -/
def binSizeAuto (key : String) : String :=
  if key = "last_1h" ∨ key = "last_24h" then "1h" else "1d"

/-- `SentinelClient.get_alert_trend`. -/
def getAlertTrend (backend : Backend) (_now : Int) (tw sev bin : PyVal) :
    Except PyExc (SCR TrendPoint) × List String :=
  match timeWindowKey? tw with
  | .error e => (.error e, [])
  | .ok Option.none => (.ok (.err (invalidTimeWindow tw)), [])
  | .ok (Option.some key) =>
    let bin' := match bin with
      | .none => PyVal.str (binSizeAuto key)
      | b => b
    let w := timeWindowGet key
    match buildQuery "alert_trend"
        [("time_range", .str w.kql_ago),
         ("severity_filter", .str (severityFilter sev)),
         ("bin_size", bin')] with
    | .error e => (.error e, [])
    | .ok q =>
      match executeQuery backend q with
      | .err qe => (.ok (.err qe), [q])
      | .rows tables trunc perr ms =>
        match parseTrendPoints tables with
        | .error e => (.error e, [q])
        | .ok points =>
          (.ok (.ok ⟨⟨points.length, ms, trunc, perr⟩, points⟩), [q])

/-- `SentinelClient.get_top_entities`. -/
def getTopEntities (backend : Backend) (_now : Int) (tw sev lim : PyVal) :
    Except PyExc (SCR EntityCount) × List String :=
  match timeWindowKey? tw with
  | .error e => (.error e, [])
  | .ok Option.none => (.ok (.err (invalidTimeWindow tw)), [])
  | .ok (Option.some key) =>
    match pyMin lim (maxLimit "top_entities") with
    | .error e => (.error e, [])
    | .ok lim' =>
      let w := timeWindowGet key
      match buildQuery "top_entities"
          [("time_range", .str w.kql_ago),
           ("severity_filter", .str (severityFilter sev)),
           ("limit", lim')] with
      | .error e => (.error e, [])
      | .ok q =>
        match executeQuery backend q with
        | .err qe => (.ok (.err qe), [q])
        | .rows tables trunc perr ms =>
          match parseEntityCounts tables with
          | .error e => (.error e, [q])
          | .ok entities =>
            (.ok (.ok ⟨⟨entities.length, ms, trunc, perr⟩, entities⟩), [q])

/-- The per-incident body of `get_incident_detail`'s loop: fetch dependent
alerts and entities, tolerate sub-query errors silently, and backfill
`entity_count` from a successful entity sub-query.  Also returns the
sub-queries issued, in order. -/
def detailLoop (backend : Backend) (now : Int) :
    List Incident →
    Except PyExc (List Alert × List (List (String × PyVal)) × List Incident × List String)
  | [] => .ok ([], [], [], [])
  | inc :: rest =>
    match buildQuery "get_incident_alerts" [("incident_number", .int inc.number)] with
    | .error e => .error e
    | .ok aq =>
      let incidentAlerts := match executeQuery backend aq with
        | .err _ => []
        | .rows t _ _ _ => parseAlerts now t
      match buildQuery "get_incident_entities" [("incident_number", .int inc.number)] with
      | .error e => .error e
      | .ok eq2 =>
        let eres := executeQuery backend eq2
        match detailLoop backend now rest with
        | .error e => .error e
        | .ok (restAlerts, restEntities, restIncs, restQs) =>
          match eres with
          | .err _ =>
            .ok (incidentAlerts ++ restAlerts, restEntities,
                 inc :: restIncs, aq :: eq2 :: restQs)
          | .rows t _ _ _ =>
            let ies := parseEntities t
            .ok (incidentAlerts ++ restAlerts, ies ++ restEntities,
                 { inc with entity_count := ies.length } :: restIncs,
                 aq :: eq2 :: restQs)

/-- `SentinelClient.get_incident_detail`.  An `int` (or `bool`, which
Python's `isinstance(_, int)` accepts) selects exact-number lookup; any
other reference is looked up as a title substring.  The composite result is
a single envelope dict. -/
def primaryQuery (ref : PyVal) : Except PyExc String :=
  match ref with
  | .int _ => buildQuery "get_incident_by_number" [("incident_number", ref)]
  | .bool _ => buildQuery "get_incident_by_number" [("incident_number", ref)]
  | _ => buildQuery "get_incident_by_name"
      [("incident_name", .str (pyStr ref)), ("limit", .int 10)]

def getIncidentDetail (backend : Backend) (now : Int) (ref : PyVal) :
    Except PyExc (SCR PyVal) × List String :=
  match primaryQuery ref with
  | .error e => (.error e, [])
  | .ok q =>
    match executeQuery backend q with
    | .err qe => (.ok (.err qe), [q])
    | .rows tables trunc perr ms =>
      match parseIncidents now tables true with
      | .error e => (.error e, [q])
      | .ok incs =>
        match detailLoop backend now incs with
        | .error e => (.error e, [q])
        | .ok (allAlerts, allEntities, updatedIncs, subQs) =>
          let projectedIncidents :=
            updatedIncs.map (fun i => applyProjection i.to_dict "incident_detail")
          let projectedAlerts :=
            allAlerts.map (fun a => applyProjection a.to_dict "alert_list")
          let composite : PyVal := .dict
            [("incidents", .list (projectedIncidents.map PyVal.dict)),
             ("alerts", .list (projectedAlerts.map PyVal.dict)),
             ("entities", .list (allEntities.map PyVal.dict))]
          (.ok (.ok ⟨⟨projectedIncidents.length, ms, trunc, perr⟩, [composite]⟩),
           q :: subQs)

/-! ### Tool dispatcher (`src/tool_handlers.py`) -/

def QueryError.to_dict (e : QueryError) : PyVal :=
  .dict [("code", .str e.code),
         ("message", .str e.message),
         ("retry_possible", .bool e.retry_possible)]

def queryMetadataToDict (m : QueryMetadata) : PyVal :=
  .dict [("total", .int m.total),
         ("query_ms", .float m.query_ms),
         ("truncated", .bool m.truncated),
         ("partial_error", match m.partial_error with
           | Option.some s => .str s
           | Option.none => .none)]

/-- `QueryResult.to_dict` given the element serializer (`r.to_dict()` when
the record has one, identity when the element is already a plain dict). -/
def queryResultToDict (ser : α → PyVal) (r : QueryResult α) : PyVal :=
  .dict [("metadata", queryMetadataToDict r.metadata),
         ("results", .list (r.results.map ser))]

/-- `.to_dict()` on the final value of a query method. -/
def scrToDict (ser : α → PyVal) : SCR α → PyVal
  | .ok r => queryResultToDict ser r
  | .err e => e.to_dict

/-- `ToolDispatcher._call_with_retry`: call the method once; call exactly
once more iff the first call returned a `QueryError` with
`retry_possible=true`; serialize whatever the final attempt produced.  The
method is modelled as a sequence of attempt outcomes, and the second
component counts the attempts actually made. -/
def callWithRetry (ser : α → PyVal) (method : Nat → Except PyExc (SCR α)) :
    Except PyExc PyVal × Nat :=
  match method 0 with
  | .error e => (.error e, 1)
  | .ok r =>
    match r with
    | .err qe =>
      if qe.retry_possible then
        match method 1 with
        | .error e => (.error e, 2)
        | .ok r2 => (.ok (scrToDict ser r2), 2)
      else (.ok (scrToDict ser (SCR.err qe)), 1)
    | .ok qr => (.ok (scrToDict ser (SCR.ok qr)), 1)

/-- `args.get(key, default)`: raises `AttributeError` when the parsed JSON
arguments are not an object. -/
def pyGet (args : PyVal) (key : String) (default : PyVal) : Except PyExc PyVal :=
  match args with
  | .dict d => .ok (dictGetD d key default)
  | v => .error (.attributeError ("object has no attribute get: " ++ pyStr v))

def serRecordDict : List (String × PyVal) → PyVal := PyVal.dict

def handlerQueryIncidents (backend : Backend) (now : Int) (args : PyVal) :
    Except PyExc PyVal :=
  match pyGet args "time_window" (.str "last_24h") with
  | .error e => .error e
  | .ok tw =>
    match pyGet args "min_severity" (.str "Informational") with
    | .error e => .error e
    | .ok sev =>
      match pyGet args "limit" (.int 20) with
      | .error e => .error e
      | .ok lim =>
        (callWithRetry serRecordDict
          (fun _ => (queryIncidents backend now tw sev lim).1)).1

def handlerQueryAlerts (backend : Backend) (now : Int) (args : PyVal) :
    Except PyExc PyVal :=
  match pyGet args "time_window" (.str "last_24h") with
  | .error e => .error e
  | .ok tw =>
    match pyGet args "min_severity" (.str "Informational") with
    | .error e => .error e
    | .ok sev =>
      match pyGet args "limit" (.int 20) with
      | .error e => .error e
      | .ok lim =>
        (callWithRetry serRecordDict
          (fun _ => (queryAlerts backend now tw sev lim).1)).1

def handlerGetAlertTrend (backend : Backend) (now : Int) (args : PyVal) :
    Except PyExc PyVal :=
  match pyGet args "time_window" (.str "last_7d") with
  | .error e => .error e
  | .ok tw =>
    match pyGet args "min_severity" (.str "Informational") with
    | .error e => .error e
    | .ok sev =>
      match pyGet args "bin_size" .none with
      | .error e => .error e
      | .ok bin =>
        (callWithRetry (fun p => .dict (TrendPoint.to_dict p))
          (fun _ => (getAlertTrend backend now tw sev bin).1)).1

def handlerGetTopEntities (backend : Backend) (now : Int) (args : PyVal) :
    Except PyExc PyVal :=
  match pyGet args "time_window" (.str "last_7d") with
  | .error e => .error e
  | .ok tw =>
    match pyGet args "min_severity" (.str "Informational") with
    | .error e => .error e
    | .ok sev =>
      match pyGet args "limit" (.int 10) with
      | .error e => .error e
      | .ok lim =>
        (callWithRetry (fun p => .dict (EntityCount.to_dict p))
          (fun _ => (getTopEntities backend now tw sev lim).1)).1

def handlerGetIncidentDetail (backend : Backend) (now : Int) (args : PyVal) :
    Except PyExc PyVal :=
  match pyGet args "incident_ref" .none with
  | .error e => .error e
  | .ok ref0 =>
    match ref0 with
    | .none => .ok (.dict [("error", .str "Missing required parameter: incident_ref")])
    | ref1 =>
      let ref := match ref1 with
        | .str s =>
          (match intOfString s with
           | Option.some n => PyVal.int n
           | Option.none => PyVal.str s)
        | v => v
      (callWithRetry id (fun _ => (getIncidentDetail backend now ref).1)).1

/-- `ToolDispatcher.dispatch` for a dispatcher built without a vector
store (as `ChatSession` builds it): the five Sentinel tools, with every
other name answered by a structured unknown-tool error. -/
def dispatch (backend : Backend) (now : Int) (toolName : String) (args : PyVal) :
    Except PyExc PyVal :=
  if toolName = "query_incidents" then handlerQueryIncidents backend now args
  else if toolName = "get_incident_detail" then handlerGetIncidentDetail backend now args
  else if toolName = "query_alerts" then handlerQueryAlerts backend now args
  else if toolName = "get_alert_trend" then handlerGetAlertTrend backend now args
  else if toolName = "get_top_entities" then handlerGetTopEntities backend now args
  else .ok (.dict [("error", .str ("Unknown tool: " ++ toolName))])

/-! ### Conversation orchestrator (`src/openai_client.py`) -/

/-- One tool-call descriptor from a model response (`id`,
`function.name`, `function.arguments`). -/
structure ToolCallDesc where
  id : String
  fname : String
  args : String
deriving DecidableEq, Repr

/-- A model response message: optional text content plus requested tool
calls (the empty list models `tool_calls=None`). -/
structure ModelMsg where
  content : Option String
  tool_calls : List ToolCallDesc
deriving DecidableEq, Repr

/-- The language-model collaborator: response to the n-th completions call
of the session, with the flag recording whether the tool schema was
attached to that call. -/
def ModelSvc := Nat → Bool → ModelMsg

/-- A history entry.  `tool_calls = []` models an absent `tool_calls`
key. -/
structure ChatMsg where
  role : String
  content : Option String
  tool_calls : List ToolCallDesc
  tool_call_id : String
  name : String
deriving DecidableEq, Repr

def userMsg (s : String) : ChatMsg := ⟨"user", Option.some s, [], "", ""⟩

def assistantMsg (c : Option String) (tcs : List ToolCallDesc) : ChatMsg :=
  ⟨"assistant", c, tcs, "", ""⟩

def toolMsg (callId toolName content : String) : ChatMsg :=
  ⟨"tool", Option.some content, [], callId, toolName⟩

/-- Execute the requested tool calls strictly in order, producing one tool
message per call; `json.loads` on malformed arguments, a handler raise, or
`json.dumps` on an unserializable result propagates. -/
def runToolCalls (backend : Backend) (now : Int) :
    List ToolCallDesc → Except PyExc (List ChatMsg)
  | [] => .ok []
  | tc :: rest =>
    match jsonLoads tc.args with
    | .error e => .error e
    | .ok parsed =>
      match dispatch backend now tc.fname parsed with
      | .error e => .error e
      | .ok result =>
        match jsonDumps result with
        | .error e => .error e
        | .ok dumped =>
          match runToolCalls backend now rest with
          | .error e => .error e
          | .ok msgs => .ok (toolMsg tc.id tc.fname dumped :: msgs)

/-- The `for _round in range(max_tool_rounds)` loop of `send_message`.
Returns the updated history, whether the loop broke on a plain answer, and
always the next model-call index (= number of calls made so far). -/
def toolLoop (model : ModelSvc) (backend : Backend) (now : Int) :
    Nat → List ChatMsg → Nat → Except PyExc (List ChatMsg × Bool) × Nat
  | 0, msgs, idx => (.ok (msgs, false), idx)
  | Nat.succ rounds, msgs, idx =>
    let resp := model idx true
    let msgs' := msgs ++ [assistantMsg resp.content resp.tool_calls]
    if resp.tool_calls.isEmpty then (.ok (msgs', true), idx + 1)
    else
      match runToolCalls backend now resp.tool_calls with
      | .error e => (.error e, idx + 1)
      | .ok tms => toolLoop model backend now rounds (msgs' ++ tms) (idx + 1)

/-- The trailing scan of `send_message`: most recent assistant message with
truthy content, else the empty string. -/
def extractAnswerRev : List ChatMsg → String
  | [] => ""
  | m :: rest =>
    if m.role = "assistant" then
      match m.content with
      | Option.some c => if c ≠ "" then c else extractAnswerRev rest
      | Option.none => extractAnswerRev rest
    else extractAnswerRev rest

def extractAnswer (msgs : List ChatMsg) : String := extractAnswerRev msgs.reverse

/-- Indices of the `user` messages in history. -/
def userIndices (msgs : List ChatMsg) : List Nat :=
  (msgs.enum.filter (fun p => p.2.role = "user")).map Prod.fst

/-- `ChatSession._trim_messages`: while the history exceeds the target,
cut everything before the second-earliest user message; stop silently when
fewer than two user messages remain.  Each cut shortens the list, so the
length is enough fuel. -/
def trimLoop (target : Nat) : Nat → List ChatMsg → List ChatMsg
  | 0, msgs => msgs
  | Nat.succ fuel, msgs =>
    if msgs.length ≤ target then msgs
    else
      match (userIndices msgs).get? 1 with
      | Option.none => msgs
      | Option.some cut => trimLoop target fuel (msgs.drop cut)

def trimMessages (maxTurns : Nat) (msgs : List ChatMsg) : List ChatMsg :=
  trimLoop (maxTurns * 2) (msgs.length + 1) msgs

/-- `prompts.MAX_ROUNDS_MESSAGE`. -/
def MAX_ROUNDS_MESSAGE : String :=
  "I" ++ sq ++ "ve reached the maximum number of tool calls for this turn. " ++
    "Here" ++ sq ++ "s what I found so far:"

structure SessionState where
  messages : List ChatMsg
  turn_count : Nat
deriving DecidableEq, Repr

def SessionState.initial : SessionState := ⟨[], 0⟩

/-- `ChatSession.send_message`.  `idx0` is the number of model calls made
before this turn; the second component is the updated count, so the calls
made by this turn are the difference. -/
def sendMessage (model : ModelSvc) (backend : Backend) (now : Int)
    (maxToolRounds maxTurns : Nat) (st : SessionState) (userInput : String)
    (idx0 : Nat) : Except PyExc (String × SessionState) × Nat :=
  let msgs1 := st.messages ++ [userMsg userInput]
  let tc := st.turn_count + 1
  let msgs2 := if maxTurns < tc then trimMessages maxTurns msgs1 else msgs1
  match toolLoop model backend now maxToolRounds msgs2 idx0 with
  | (.error e, idx) => (.error e, idx)
  | (.ok (msgs3, broke), idx) =>
    if broke then (.ok (extractAnswer msgs3, ⟨msgs3, tc⟩), idx)
    else
      let msgs4 := msgs3 ++ [userMsg MAX_ROUNDS_MESSAGE]
      let resp := model idx false
      let msgs5 := msgs4 ++ [assistantMsg resp.content []]
      (.ok (extractAnswer msgs5, ⟨msgs5, tc⟩), idx + 1)

/-! ## Helper lemmas -/

theorem lookup_some_of_mem_keys {β : Type} (n : String) :
    ∀ params : List (String × β), n ∈ params.map Prod.fst →
      ∃ v, List.lookup n params = Option.some v := by
  intro params
  induction params with
  | nil => intro h; exact absurd h (by simp)
  | cons kv rest ih =>
    intro h
    by_cases hk : n = kv.1
    · exact ⟨kv.2, by simp [List.lookup, hk]⟩
    · have : n ∈ rest.map Prod.fst := by
        rcases List.mem_map.mp h with ⟨p, hp, he⟩
        rcases List.mem_cons.mp hp with h1 | h2
        · exact absurd (h1 ▸ he).symm hk
        · exact List.mem_map.mpr ⟨p, h2, he⟩
      rcases ih this with ⟨v, hv⟩
      exact ⟨v, by simp [List.lookup, beq_eq_false_iff_ne.mpr hk, hv]⟩

/-- When every replacement field of a template is among the parameter keys,
rendering succeeds: the skeleton of the claim that a fully-supplied
template always formats. -/
theorem pyFormat_ok : ∀ (f : Nat) (cs : List Char) (params : List (String × PyVal))
    (ns : List String), formatNames f cs = Option.some ns →
    (∀ n ∈ ns, n ∈ params.map Prod.fst) →
    ∃ out, pyFormat f cs params = .ok out := by
  intro f
  induction f with
  | zero => intro cs params ns _ _; exact ⟨[], rfl⟩
  | succ f ih =>
    intro cs params ns hfn hcov
    cases ht : nextTok cs with
    | error u =>
      cases u
      simp only [formatNames, ht] at hfn
      exact Option.noConfusion hfn
    | ok o =>
      cases o with
      | none =>
        exact ⟨[], by simp only [pyFormat, ht]⟩
      | some tr =>
        obtain ⟨tok, rest⟩ := tr
        cases tok with
        | lit c =>
          simp only [formatNames, ht] at hfn
          rcases ih rest params ns hfn hcov with ⟨out, hout⟩
          exact ⟨c :: out, by simp only [pyFormat, ht, hout]⟩
        | esc c =>
          simp only [formatNames, ht] at hfn
          rcases ih rest params ns hfn hcov with ⟨out, hout⟩
          exact ⟨c :: out, by simp only [pyFormat, ht, hout]⟩
        | field name =>
          simp only [formatNames, ht] at hfn
          cases hrest : formatNames f rest with
          | none => rw [hrest] at hfn; exact Option.noConfusion hfn
          | some ns' =>
            rw [hrest] at hfn
            injection hfn with hns
            subst hns
            rcases lookup_some_of_mem_keys name params
                (hcov name (by simp)) with ⟨v, hv⟩
            rcases ih rest params ns' hrest
                (fun n hn => hcov n (by simp [hn])) with ⟨out, hout⟩
            exact ⟨(pyStr v).toList ++ out, by simp only [pyFormat, ht, hv, hout]⟩

theorem mem_insertSorted (a s : String) :
    ∀ xs : List String, a ∈ insertSorted s xs ↔ a = s ∨ a ∈ xs := by
  intro xs
  induction xs with
  | nil => simp [insertSorted]
  | cons t rest ih =>
    by_cases h : strLe s t = true
    · simp [insertSorted, h]
    · simp [insertSorted, h, ih]
      tauto

theorem mem_sortStrs (a : String) :
    ∀ xs : List String, a ∈ sortStrs xs ↔ a ∈ xs := by
  intro xs
  induction xs with
  | nil => simp [sortStrs]
  | cons t rest ih =>
    simp only [sortStrs, List.foldr] at ih ⊢
    rw [mem_insertSorted, ih, List.mem_cons]

/-- Membership in the reported missing set is exactly "a placeholder of the
template that is not among the supplied parameter keys". -/
theorem mem_missingOf (p : String) (t : String) (params : List (String × PyVal)) :
    p ∈ missingOf t params ↔
      (p ∈ placeholdersOf t ∧ p ∉ params.map Prod.fst) := by
  unfold missingOf
  rw [mem_sortStrs, List.mem_filter]
  simp [paramKeys]

/-- Every template of the registry lexes without stray braces, and every
field it formats is one of its regex-extracted placeholders. -/
def registryTemplatesOk : Bool :=
  TEMPLATE_REGISTRY.all (fun kv =>
    match formatNames (kv.2.length + 1) kv.2.toList with
    | Option.some ns => ns.all (fun n => decide (n ∈ placeholdersOf kv.2))
    | Option.none => false)

set_option maxRecDepth 8000 in
theorem registryTemplatesOk_eq_true : registryTemplatesOk = true := by decide

theorem lookup_mem_of_eq_some {β : Type} {n : String} {t : β} :
    ∀ {l : List (String × β)}, List.lookup n l = Option.some t → (n, t) ∈ l := by
  intro l
  induction l with
  | nil => intro h; exact Option.noConfusion h
  | cons kv rest ih =>
    intro h
    by_cases hk : n = kv.1
    · simp only [List.lookup, hk, beq_self_eq_true] at h
      injection h with h
      exact List.mem_cons.mpr (Or.inl (by rw [← h, hk]))
    · simp only [List.lookup, beq_eq_false_iff_ne.mpr hk] at h
      exact List.mem_cons.mpr (Or.inr (ih h))

theorem registryGet_lookup {name : String} (h : name ∈ registryKeys) :
    List.lookup name TEMPLATE_REGISTRY = Option.some (registryGet name) := by
  rcases lookup_some_of_mem_keys name TEMPLATE_REGISTRY h with ⟨t, ht⟩
  simp [registryGet, ht]

/-- A registered template with every placeholder supplied renders without
error. -/
theorem buildQuery_renders (name : String) (params : List (String × PyVal))
    (h1 : name ∈ registryKeys)
    (h2 : ∀ p ∈ placeholdersOf (registryGet name), p ∈ params.map Prod.fst) :
    ∃ s, buildQuery name params = .ok s := by
  have hmem : (name, registryGet name) ∈ TEMPLATE_REGISTRY :=
    lookup_mem_of_eq_some (registryGet_lookup h1)
  have hok := registryTemplatesOk_eq_true
  unfold registryTemplatesOk at hok
  have hkv := List.all_eq_true.mp hok _ hmem
  have hmiss : missingOf (registryGet name) params = [] := by
    rcases hmv : missingOf (registryGet name) params with _ | ⟨p, ps⟩
    · rfl
    · have hp : p ∈ missingOf (registryGet name) params := by rw [hmv]; simp
      rcases (mem_missingOf p _ params).mp hp with ⟨hin, hout⟩
      exact absurd (h2 p hin) hout
  cases hfn : formatNames ((registryGet name).length + 1) (registryGet name).toList with
  | none => rw [hfn] at hkv; exact Bool.noConfusion hkv
  | some ns =>
    rw [hfn] at hkv
    have hns : ∀ n ∈ ns, n ∈ placeholdersOf (registryGet name) := by
      intro n hn
      have := List.all_eq_true.mp hkv n hn
      exact of_decide_eq_true this
    rcases pyFormat_ok ((registryGet name).length + 1) (registryGet name).toList
        params ns hfn (fun n hn => h2 n (hns n hn)) with ⟨out, hout⟩
    have hout' : pyFormat ((registryGet name).length + 1) (registryGet name).data params
        = .ok out := hout
    refine ⟨String.mk out, ?_⟩
    unfold buildQuery
    simp [h1, hmiss, hout']

/-- `int(v)` succeeds. -/
def pyIntOk (v : PyVal) : Bool :=
  match pyInt v with
  | .ok _ => true
  | .error _ => false

/-- The integer-typed cells the row parsers convert with `int(...)` are all
convertible in this row. -/
def rowIntOk (cols : List String) (row : List PyVal) : Prop :=
  pyIntOk (dictGetD (rowDict cols row) "IncidentNumber" (.int 0)) = true ∧
  pyIntOk (dictGetD (rowDict cols row) "Count" (.int 0)) = true ∧
  pyIntOk (dictGetD (rowDict cols row) "AlertCount" (.int 0)) = true

def tablesIntOk (tables : List LogsTable) : Prop :=
  ∀ t ∈ tables, ∀ row ∈ t.rows, rowIntOk t.columns row

/-- Every table the backend can return is well typed in its integer
cells. -/
def backendIntOk (b : Backend) : Prop :=
  ∀ q r, b q = .respond r → tablesIntOk r.tables ∧ tablesIntOk r.partial_data

theorem exec_tablesIntOk {b : Backend} {q : String} {tables : List LogsTable}
    {tr : Bool} {pe : Option String} {ms : ℚ} (hB : backendIntOk b)
    (hex : executeQuery b q = .rows tables tr pe ms) : tablesIntOk tables := by
  cases hb : b q with
  | respond r =>
    cases hr : r.status with
    | success =>
      simp only [executeQuery, hb, hr, ExecResult.rows.injEq] at hex
      exact hex.1 ▸ (hB q r hb).1
    | incomplete =>
      simp only [executeQuery, hb, hr, ExecResult.rows.injEq] at hex
      exact hex.1 ▸ (hB q r hb).2
    | unexpected s =>
      simp only [executeQuery, hb, hr] at hex
      exact ExecResult.noConfusion hex
  | raiseHttp sc ec msg =>
    simp only [executeQuery, hb] at hex
    exact ExecResult.noConfusion hex
  | raiseOther msg =>
    simp only [executeQuery, hb] at hex
    exact ExecResult.noConfusion hex

theorem pyInt_ok_of_pyIntOk {v : PyVal} (h : pyIntOk v = true) :
    ∃ n, pyInt v = .ok n := by
  unfold pyIntOk at h
  cases hv : pyInt v with
  | ok n => exact ⟨n, rfl⟩
  | error e => rw [hv] at h; exact Bool.noConfusion h

theorem parseIncidentRows_ok (now : Int) (cols : List String) (d : Bool) :
    ∀ rows : List (List PyVal),
      (∀ row ∈ rows, pyIntOk (dictGetD (rowDict cols row) "IncidentNumber" (.int 0)) = true) →
      ∃ xs, parseIncidentRows now cols d rows = .ok xs := by
  intro rows
  induction rows with
  | nil => intro _; exact ⟨[], rfl⟩
  | cons row rest ih =>
    intro h
    rcases pyInt_ok_of_pyIntOk (h row (by simp)) with ⟨n, hn⟩
    rcases ih (fun r hr => h r (by simp [hr])) with ⟨xs, hxs⟩
    simp only [parseIncidentRows, parseIncidentRow, hn, hxs]
    exact ⟨_, rfl⟩

theorem parseIncidents_ok (now : Int) (d : Bool) {tables : List LogsTable}
    (h : tablesIntOk tables) : ∃ xs, parseIncidents now tables d = .ok xs := by
  cases tables with
  | nil => exact ⟨[], rfl⟩
  | cons t rest =>
    exact parseIncidentRows_ok now t.columns d t.rows
      (fun row hr => (h t (by simp) row hr).1)

theorem parseTrendRows_ok (cols : List String) :
    ∀ rows : List (List PyVal),
      (∀ row ∈ rows, pyIntOk (dictGetD (rowDict cols row) "Count" (.int 0)) = true) →
      ∃ xs, parseTrendRows cols rows = .ok xs := by
  intro rows
  induction rows with
  | nil => intro _; exact ⟨[], rfl⟩
  | cons row rest ih =>
    intro h
    rcases pyInt_ok_of_pyIntOk (h row (by simp)) with ⟨n, hn⟩
    rcases ih (fun r hr => h r (by simp [hr])) with ⟨xs, hxs⟩
    simp only [parseTrendRows, parseTrendRow, hn, hxs]
    exact ⟨_, rfl⟩

theorem parseTrendPoints_ok {tables : List LogsTable}
    (h : tablesIntOk tables) : ∃ xs, parseTrendPoints tables = .ok xs := by
  cases tables with
  | nil => exact ⟨[], rfl⟩
  | cons t rest =>
    exact parseTrendRows_ok t.columns t.rows
      (fun row hr => (h t (by simp) row hr).2.1)

theorem parseEntityCountRows_ok (cols : List String) :
    ∀ rows : List (List PyVal),
      (∀ row ∈ rows, pyIntOk (dictGetD (rowDict cols row) "AlertCount" (.int 0)) = true) →
      ∃ xs, parseEntityCountRows cols rows = .ok xs := by
  intro rows
  induction rows with
  | nil => intro _; exact ⟨[], rfl⟩
  | cons row rest ih =>
    intro h
    rcases pyInt_ok_of_pyIntOk (h row (by simp)) with ⟨n, hn⟩
    rcases ih (fun r hr => h r (by simp [hr])) with ⟨xs, hxs⟩
    simp only [parseEntityCountRows, parseEntityCountRow, hn, hxs]
    exact ⟨_, rfl⟩

theorem parseEntityCounts_ok {tables : List LogsTable}
    (h : tablesIntOk tables) : ∃ xs, parseEntityCounts tables = .ok xs := by
  cases tables with
  | nil => exact ⟨[], rfl⟩
  | cons t rest =>
    exact parseEntityCountRows_ok t.columns t.rows
      (fun row hr => (h t (by simp) row hr).2.2)

set_option maxRecDepth 8000 in
theorem bq_list_incidents (w sevstr : String) (lim' : PyVal) :
    ∃ q, buildQuery "list_incidents"
      [("time_range", .str w), ("severity_filter", .str sevstr), ("limit", lim')] = .ok q := by
  refine buildQuery_renders _ _ (by decide) ?_
  have hpl : placeholdersOf (registryGet "list_incidents") =
      ["time_range", "severity_filter", "limit"] := by decide
  rw [hpl]
  intro p hp
  fin_cases hp <;> simp

set_option maxRecDepth 8000 in
theorem bq_list_alerts (w sevstr : String) (lim' : PyVal) :
    ∃ q, buildQuery "list_alerts"
      [("time_range", .str w), ("severity_filter", .str sevstr), ("limit", lim')] = .ok q := by
  refine buildQuery_renders _ _ (by decide) ?_
  have hpl : placeholdersOf (registryGet "list_alerts") =
      ["time_range", "severity_filter", "limit"] := by decide
  rw [hpl]
  intro p hp
  fin_cases hp <;> simp

set_option maxRecDepth 8000 in
theorem bq_alert_trend (w sevstr : String) (bin' : PyVal) :
    ∃ q, buildQuery "alert_trend"
      [("time_range", .str w), ("severity_filter", .str sevstr), ("bin_size", bin')] = .ok q := by
  refine buildQuery_renders _ _ (by decide) ?_
  have hpl : placeholdersOf (registryGet "alert_trend") =
      ["time_range", "severity_filter", "bin_size"] := by decide
  rw [hpl]
  intro p hp
  fin_cases hp <;> simp

set_option maxRecDepth 8000 in
theorem bq_top_entities (w sevstr : String) (lim' : PyVal) :
    ∃ q, buildQuery "top_entities"
      [("time_range", .str w), ("severity_filter", .str sevstr), ("limit", lim')] = .ok q := by
  refine buildQuery_renders _ _ (by decide) ?_
  have hpl : placeholdersOf (registryGet "top_entities") =
      ["time_range", "severity_filter", "limit"] := by decide
  rw [hpl]
  intro p hp
  fin_cases hp <;> simp

set_option maxRecDepth 8000 in
theorem bq_incident_by_number (ref : PyVal) :
    ∃ q, buildQuery "get_incident_by_number" [("incident_number", ref)] = .ok q := by
  refine buildQuery_renders _ _ (by decide) ?_
  have hpl : placeholdersOf (registryGet "get_incident_by_number") =
      ["incident_number"] := by decide
  rw [hpl]
  intro p hp
  fin_cases hp <;> simp

set_option maxRecDepth 8000 in
theorem bq_incident_by_name (nm : String) (lim' : PyVal) :
    ∃ q, buildQuery "get_incident_by_name"
      [("incident_name", .str nm), ("limit", lim')] = .ok q := by
  refine buildQuery_renders _ _ (by decide) ?_
  have hpl : placeholdersOf (registryGet "get_incident_by_name") =
      ["incident_name", "limit"] := by decide
  rw [hpl]
  intro p hp
  fin_cases hp <;> simp

set_option maxRecDepth 8000 in
theorem bq_incident_alerts (n : Int) :
    ∃ q, buildQuery "get_incident_alerts" [("incident_number", .int n)] = .ok q := by
  refine buildQuery_renders _ _ (by decide) ?_
  have hpl : placeholdersOf (registryGet "get_incident_alerts") =
      ["incident_number"] := by decide
  rw [hpl]
  intro p hp
  fin_cases hp <;> simp

set_option maxRecDepth 8000 in
theorem bq_incident_entities (n : Int) :
    ∃ q, buildQuery "get_incident_entities" [("incident_number", .int n)] = .ok q := by
  refine buildQuery_renders _ _ (by decide) ?_
  have hpl : placeholdersOf (registryGet "get_incident_entities") =
      ["incident_number"] := by decide
  rw [hpl]
  intro p hp
  fin_cases hp <;> simp

set_option maxRecDepth 8000 in
theorem detailLoop_ok (backend : Backend) (now : Int) :
    ∀ incs : List Incident, ∃ out, detailLoop backend now incs = .ok out := by
  intro incs
  induction incs with
  | nil => exact ⟨([], [], [], []), rfl⟩
  | cons inc rest ih =>
    rcases bq_incident_alerts inc.number with ⟨aq, haq⟩
    rcases bq_incident_entities inc.number with ⟨eq2, heq2⟩
    rcases ih with ⟨out, hout⟩
    cases hres : executeQuery backend eq2 with
    | err e =>
      simp only [detailLoop, haq, heq2, hout, hres]
      exact ⟨_, rfl⟩
    | rows t tr pe ms =>
      simp only [detailLoop, haq, heq2, hout, hres]
      exact ⟨_, rfl⟩

set_option maxRecDepth 8000 in
theorem queryIncidents_total (backend : Backend) (now : Int) (tw sev lim : PyVal)
    (w : Option String) (v : PyVal) (hB : backendIntOk backend)
    (htw : timeWindowKey? tw = .ok w)
    (hlim : pyMin lim (maxLimit "incident_list") = .ok v) :
    ∃ res, (queryIncidents backend now tw sev lim).1 = .ok res := by
  cases w with
  | none =>
    simp only [queryIncidents, htw]
    exact ⟨_, rfl⟩
  | some key =>
    rcases bq_list_incidents (timeWindowGet key).kql_ago (severityFilter sev) v
      with ⟨q, hq⟩
    cases hex : executeQuery backend q with
    | err e =>
      simp only [queryIncidents, htw, hlim, hq, hex]
      exact ⟨_, rfl⟩
    | rows tables tr pe ms =>
      rcases parseIncidents_ok now false (exec_tablesIntOk hB hex) with ⟨incs, hincs⟩
      simp only [queryIncidents, htw, hlim, hq, hex, hincs]
      exact ⟨_, rfl⟩

set_option maxRecDepth 8000 in
theorem queryAlerts_total (backend : Backend) (now : Int) (tw sev lim : PyVal)
    (w : Option String) (v : PyVal)
    (htw : timeWindowKey? tw = .ok w)
    (hlim : pyMin lim (maxLimit "alert_list") = .ok v) :
    ∃ res, (queryAlerts backend now tw sev lim).1 = .ok res := by
  cases w with
  | none =>
    simp only [queryAlerts, htw]
    exact ⟨_, rfl⟩
  | some key =>
    rcases bq_list_alerts (timeWindowGet key).kql_ago (severityFilter sev) v
      with ⟨q, hq⟩
    cases hex : executeQuery backend q with
    | err e =>
      simp only [queryAlerts, htw, hlim, hq, hex]
      exact ⟨_, rfl⟩
    | rows tables tr pe ms =>
      simp only [queryAlerts, htw, hlim, hq, hex]
      exact ⟨_, rfl⟩

set_option maxRecDepth 8000 in
theorem getAlertTrend_total (backend : Backend) (now : Int) (tw sev bin : PyVal)
    (w : Option String) (hB : backendIntOk backend)
    (htw : timeWindowKey? tw = .ok w) :
    ∃ res, (getAlertTrend backend now tw sev bin).1 = .ok res := by
  cases w with
  | none =>
    simp only [getAlertTrend, htw]
    exact ⟨_, rfl⟩
  | some key =>
    simp only [getAlertTrend, htw]
    generalize (match bin with
      | PyVal.none => PyVal.str (binSizeAuto key)
      | b => b) = bin'
    rcases bq_alert_trend (timeWindowGet key).kql_ago (severityFilter sev) bin'
      with ⟨q, hq⟩
    simp only [hq]
    cases hex : executeQuery backend q with
    | err e =>
      simp only [hex]
      exact ⟨_, rfl⟩
    | rows tables tr pe ms =>
      rcases parseTrendPoints_ok (exec_tablesIntOk hB hex) with ⟨pts, hpts⟩
      simp only [hex, hpts]
      exact ⟨_, rfl⟩

set_option maxRecDepth 8000 in
theorem getTopEntities_total (backend : Backend) (now : Int) (tw sev lim : PyVal)
    (w : Option String) (v : PyVal) (hB : backendIntOk backend)
    (htw : timeWindowKey? tw = .ok w)
    (hlim : pyMin lim (maxLimit "top_entities") = .ok v) :
    ∃ res, (getTopEntities backend now tw sev lim).1 = .ok res := by
  cases w with
  | none =>
    simp only [getTopEntities, htw]
    exact ⟨_, rfl⟩
  | some key =>
    rcases bq_top_entities (timeWindowGet key).kql_ago (severityFilter sev) v
      with ⟨q, hq⟩
    cases hex : executeQuery backend q with
    | err e =>
      simp only [getTopEntities, htw, hlim, hq, hex]
      exact ⟨_, rfl⟩
    | rows tables tr pe ms =>
      rcases parseEntityCounts_ok (exec_tablesIntOk hB hex) with ⟨ents, hents⟩
      simp only [getTopEntities, htw, hlim, hq, hex, hents]
      exact ⟨_, rfl⟩

set_option maxRecDepth 8000 in
theorem detail_core (backend : Backend) (now : Int) (ref : PyVal) (q : String)
    (hB : backendIntOk backend)
    (hq : primaryQuery ref = .ok q) :
    ∃ res, (getIncidentDetail backend now ref).1 = .ok res := by
  cases hex : executeQuery backend q with
  | err e =>
    simp only [getIncidentDetail, hq, hex]
    exact ⟨_, rfl⟩
  | rows tables tr pe ms =>
    rcases parseIncidents_ok now true (exec_tablesIntOk hB hex) with ⟨incs, hincs⟩
    rcases detailLoop_ok backend now incs with ⟨out, hout⟩
    simp only [getIncidentDetail, hq, hex, hincs, hout]
    exact ⟨_, rfl⟩

theorem getIncidentDetail_total (backend : Backend) (now : Int) (ref : PyVal)
    (hB : backendIntOk backend) :
    ∃ res, (getIncidentDetail backend now ref).1 = .ok res := by
  cases ref with
  | int n =>
    rcases bq_incident_by_number (.int n) with ⟨q, hq⟩
    exact detail_core backend now (.int n) q hB hq
  | bool b =>
    rcases bq_incident_by_number (.bool b) with ⟨q, hq⟩
    exact detail_core backend now (.bool b) q hB hq
  | none =>
    rcases bq_incident_by_name (pyStr PyVal.none) (.int 10) with ⟨q, hq⟩
    exact detail_core backend now PyVal.none q hB hq
  | float x =>
    rcases bq_incident_by_name (pyStr (PyVal.float x)) (.int 10) with ⟨q, hq⟩
    exact detail_core backend now (PyVal.float x) q hB hq
  | str s =>
    rcases bq_incident_by_name (pyStr (PyVal.str s)) (.int 10) with ⟨q, hq⟩
    exact detail_core backend now (PyVal.str s) q hB hq
  | datetime t =>
    rcases bq_incident_by_name (pyStr (PyVal.datetime t)) (.int 10) with ⟨q, hq⟩
    exact detail_core backend now (PyVal.datetime t) q hB hq
  | list xs =>
    rcases bq_incident_by_name (pyStr (PyVal.list xs)) (.int 10) with ⟨q, hq⟩
    exact detail_core backend now (PyVal.list xs) q hB hq
  | dict xs =>
    rcases bq_incident_by_name (pyStr (PyVal.dict xs)) (.int 10) with ⟨q, hq⟩
    exact detail_core backend now (PyVal.dict xs) q hB hq

/-- The rendered alerts-by-incident sub-query for an incident number
(total: the template always renders). -/
def alertsQueryStr (n : Int) : String :=
  match buildQuery "get_incident_alerts" [("incident_number", .int n)] with
  | .ok s => s
  | .error _ => ""

/-- The rendered distinct-entities sub-query for an incident number. -/
def entitiesQueryStr (n : Int) : String :=
  match buildQuery "get_incident_entities" [("incident_number", .int n)] with
  | .ok s => s
  | .error _ => ""

set_option maxRecDepth 8000 in
theorem alertsQueryStr_spec (n : Int) :
    buildQuery "get_incident_alerts" [("incident_number", .int n)] =
      .ok (alertsQueryStr n) := by
  rcases bq_incident_alerts n with ⟨q, hq⟩
  simp [alertsQueryStr, hq]

set_option maxRecDepth 8000 in
theorem entitiesQueryStr_spec (n : Int) :
    buildQuery "get_incident_entities" [("incident_number", .int n)] =
      .ok (entitiesQueryStr n) := by
  rcases bq_incident_entities n with ⟨q, hq⟩
  simp [entitiesQueryStr, hq]

/-- Row count of the first table of a backend result — what `len` of the
parsed entity rows reports. -/
def firstTableRowCount : List LogsTable → Nat
  | [] => 0
  | t :: _ => t.rows.length

theorem parseEntities_length (tables : List LogsTable) :
    (parseEntities tables).length = firstTableRowCount tables := by
  cases tables with
  | nil => rfl
  | cons t rest => simp [parseEntities, firstTableRowCount]

/-- The alerts a single matched incident contributes to the composite
envelope: the parsed rows of its alerts sub-query, or nothing when that
sub-query returns a `QueryError`. -/
def alertContrib (backend : Backend) (now : Int) (inc : Incident) : List Alert :=
  match executeQuery backend (alertsQueryStr inc.number) with
  | .err _ => []
  | .rows t _ _ _ => parseAlerts now t

/-- The entity rows a single matched incident contributes to the composite
envelope: the parsed rows of its entities sub-query, or nothing when that
sub-query returns a `QueryError`. -/
def entityContrib (backend : Backend) (inc : Incident) :
    List (List (String × PyVal)) :=
  match executeQuery backend (entitiesQueryStr inc.number) with
  | .err _ => []
  | .rows t _ _ _ => parseEntities t

/-- How a matched incident appears in the composite envelope: unchanged
when its entities sub-query errored (so `entity_count` stays as parsed),
otherwise with `entity_count` backfilled from the sub-query's row count. -/
def detailIncidentOf (backend : Backend) (inc : Incident) : Incident :=
  match executeQuery backend (entitiesQueryStr inc.number) with
  | .err _ => inc
  | .rows t _ _ _ => { inc with entity_count := (parseEntities t).length }

theorem alertContrib_eq (backend : Backend) (now : Int) (inc : Incident) :
    (match executeQuery backend (alertsQueryStr inc.number) with
     | .err _ => ([] : List Alert)
     | .rows t _ _ _ => parseAlerts now t) = alertContrib backend now inc := rfl

theorem entityContrib_eq (backend : Backend) (inc : Incident) :
    (match executeQuery backend (entitiesQueryStr inc.number) with
     | .err _ => ([] : List (List (String × PyVal)))
     | .rows t _ _ _ => parseEntities t) = entityContrib backend inc := rfl

theorem detailIncidentOf_eq (backend : Backend) (inc : Incident) :
    (match executeQuery backend (entitiesQueryStr inc.number) with
     | .err _ => inc
     | .rows t _ _ _ => { inc with entity_count := (parseEntities t).length }) =
      detailIncidentOf backend inc := rfl

/-- Every incident the row parser produces carries `entity_count = 0`. -/
theorem parseIncidentRows_entity_count (now : Int) (cols : List String) (d : Bool) :
    ∀ (rows : List (List PyVal)) (xs : List Incident),
      parseIncidentRows now cols d rows = .ok xs →
      ∀ i ∈ xs, i.entity_count = 0 := by
  intro rows
  induction rows with
  | nil =>
    intro xs h i hi
    injection h with h
    subst h
    exact absurd hi (by simp)
  | cons row rest ih =>
    intro xs h i hi
    cases hrow : parseIncidentRow now cols row d with
    | error e =>
      simp only [parseIncidentRows, hrow] at h
      exact Except.noConfusion h
    | ok inc =>
      cases hrest : parseIncidentRows now cols d rest with
      | error e =>
        simp only [parseIncidentRows, hrow, hrest] at h
        exact Except.noConfusion h
      | ok xs' =>
        simp only [parseIncidentRows, hrow, hrest, Except.ok.injEq] at h
        subst h
        rcases List.mem_cons.mp hi with h1 | h2
        · subst h1
          cases hn : pyInt (dictGetD (rowDict cols row) "IncidentNumber" (.int 0)) with
          | error e =>
            simp only [parseIncidentRow, hn] at hrow
            exact Except.noConfusion hrow
          | ok num =>
            simp only [parseIncidentRow, hn, Except.ok.injEq] at hrow
            rw [← hrow]
        · exact ih xs' hrest i h2

theorem parseIncidents_entity_count {now : Int} {tables : List LogsTable}
    {d : Bool} {xs : List Incident} (h : parseIncidents now tables d = .ok xs) :
    ∀ i ∈ xs, i.entity_count = 0 := by
  cases tables with
  | nil =>
    injection h with h
    subst h
    intro i hi
    exact absurd hi (by simp)
  | cons t rest => exact parseIncidentRows_entity_count now t.columns d t.rows xs h

set_option maxRecDepth 8000 in
/-- How `get_incident_detail`'s loop transforms its inputs: alerts and
entities are the concatenation of per-incident contributions (empty for an
errored sub-query), and each incident is returned unchanged unless its
entity sub-query succeeded, in which case `entity_count` is backfilled with
the parsed row count. -/
theorem detailLoop_spec (backend : Backend) (now : Int) :
    ∀ (incs : List Incident)
      (out : List Alert × List (List (String × PyVal)) × List Incident × List String),
      detailLoop backend now incs = .ok out →
      out.1 = (incs.map (fun inc =>
        match executeQuery backend (alertsQueryStr inc.number) with
        | .err _ => []
        | .rows t _ _ _ => parseAlerts now t)).flatten ∧
      out.2.1 = (incs.map (fun inc =>
        match executeQuery backend (entitiesQueryStr inc.number) with
        | .err _ => []
        | .rows t _ _ _ => parseEntities t)).flatten ∧
      out.2.2.1 = incs.map (fun inc =>
        match executeQuery backend (entitiesQueryStr inc.number) with
        | .err _ => inc
        | .rows t _ _ _ => { inc with entity_count := (parseEntities t).length }) := by
  intro incs
  induction incs with
  | nil =>
    intro out h
    injection h with h
    subst h
    exact ⟨rfl, rfl, rfl⟩
  | cons inc rest ih =>
    intro out h
    cases hrest : detailLoop backend now rest with
    | error e =>
      cases heres : executeQuery backend (entitiesQueryStr inc.number) <;>
        · simp only [detailLoop, alertsQueryStr_spec inc.number,
            entitiesQueryStr_spec inc.number, hrest, heres] at h
          exact Except.noConfusion h
    | ok outR =>
      obtain ⟨ra, re, ri, rq⟩ := outR
      rcases ih (ra, re, ri, rq) hrest with ⟨iha, ihe, ihi⟩
      dsimp only at iha ihe ihi
      cases heres : executeQuery backend (entitiesQueryStr inc.number) with
      | err e =>
        simp only [detailLoop, alertsQueryStr_spec inc.number,
          entitiesQueryStr_spec inc.number, hrest, heres, Except.ok.injEq] at h
        subst h
        cases hares : executeQuery backend (alertsQueryStr inc.number) with
        | err e2 =>
          refine ⟨?_, ?_, ?_⟩ <;> simp [hares, heres, iha, ihe, ihi]
        | rows t2 tr2 pe2 ms2 =>
          refine ⟨?_, ?_, ?_⟩ <;> simp [hares, heres, iha, ihe, ihi]
      | rows t tr pe ms =>
        simp only [detailLoop, alertsQueryStr_spec inc.number,
          entitiesQueryStr_spec inc.number, hrest, heres, Except.ok.injEq] at h
        subst h
        cases hares : executeQuery backend (alertsQueryStr inc.number) with
        | err e2 =>
          refine ⟨?_, ?_, ?_⟩ <;> simp [hares, heres, iha, ihe, ihi]
        | rows t2 tr2 pe2 ms2 =>
          refine ⟨?_, ?_, ?_⟩ <;> simp [hares, heres, iha, ihe, ihi]

/-! ## Claim theorems -/

/-- C6: the number of severity levels included by `severityFilter` is
non-increasing as the threshold rises through
Informational < Low < Medium < High, and the Informational threshold, any
unrecognized string, and the empty string all yield the full set of four
levels (never an error — the function is total by construction). -/
theorem severity_filter_monotone_and_defaults :
    (severityIncluded (.str "High")).length ≤ (severityIncluded (.str "Medium")).length ∧
    (severityIncluded (.str "Medium")).length ≤ (severityIncluded (.str "Low")).length ∧
    (severityIncluded (.str "Low")).length ≤ (severityIncluded (.str "Informational")).length ∧
    severityIncluded (.str "Informational") = SEVERITY_ORDER ∧
    severityIncluded (.str "") = SEVERITY_ORDER ∧
    (∀ s : String, s ∉ SEVERITY_ORDER → severityIncluded (.str s) = SEVERITY_ORDER) ∧
    SEVERITY_ORDER.length = 4 := by
  refine ⟨by decide, by decide, by decide, by decide, by decide, ?_, by decide⟩
  intro s hs
  simp only [SEVERITY_ORDER, List.mem_cons, List.not_mem_nil, or_false, not_or] at hs
  obtain ⟨h1, h2, h3, h4⟩ := hs
  simp [severityIncluded, severityIndex, SEVERITY_ORDER, List.findIdx?,
    Ne.symm h1, Ne.symm h2, Ne.symm h3, Ne.symm h4]

/-- Witness for C6: the unrecognized-string clause applied at the concrete
input "Critical" (a fifth level that does not exist). -/
theorem severity_filter_monotone_and_defaults_witness :
    severityIncluded (.str "Critical") = SEVERITY_ORDER :=
  severity_filter_monotone_and_defaults.2.2.2.2.2.1 "Critical" (by decide)

/-- C4: every windowed operation (query_incidents, query_alerts,
get_alert_trend, get_top_entities) called with a time-window key outside the
six registered keys returns a non-retryable `invalid_time_window`
`QueryError` and issues no backend query at all (the query log is empty,
for every backend). -/
theorem invalid_time_window_rejected_before_backend :
    (invalidTimeWindow (.str "x")).code = "invalid_time_window" ∧
    (∀ tw : PyVal, (invalidTimeWindow tw).retry_possible = false) ∧
    timeWindowKeys = ["last_1h", "last_24h", "last_3d", "last_7d", "last_14d", "last_30d"] ∧
    (∀ s : String, s ∉ timeWindowKeys → ∀ backend now sev lim,
      queryIncidents backend now (.str s) sev lim =
        (.ok (.err (invalidTimeWindow (.str s))), []) ∧
      queryAlerts backend now (.str s) sev lim =
        (.ok (.err (invalidTimeWindow (.str s))), []) ∧
      getAlertTrend backend now (.str s) sev lim =
        (.ok (.err (invalidTimeWindow (.str s))), []) ∧
      getTopEntities backend now (.str s) sev lim =
        (.ok (.err (invalidTimeWindow (.str s))), [])) := by
  refine ⟨rfl, fun _ => rfl, rfl, ?_⟩
  intro s hs backend now sev lim
  have hk : timeWindowKey? (.str s) = .ok Option.none := by
    simp [timeWindowKey?, hs]
  exact ⟨by simp [queryIncidents, hk], by simp [queryAlerts, hk],
    by simp [getAlertTrend, hk], by simp [getTopEntities, hk]⟩

/-- Witness for C4: the key "last_2h" is not registered, so
`query_incidents` fails closed without touching the backend. -/
theorem invalid_time_window_rejected_before_backend_witness :
    queryIncidents (fun _ => .raiseOther "boom") 0 (.str "last_2h")
        (.str "Informational") (.int 20) =
      (.ok (.err (invalidTimeWindow (.str "last_2h"))), []) :=
  (invalid_time_window_rejected_before_backend.2.2.2 "last_2h" (by decide)
    (fun _ => .raiseOther "boom") 0 (.str "Informational") (.int 20)).1

/-- The transient failure classes named by the spec: rate limiting (429),
the service-unavailable class of server errors (500, 502, 503), and gateway
timeout (504). -/
def transientClasses : List Int := [429] ++ [500, 502, 503] ++ [504]

/-- C3: a backend failure maps to a `QueryError` whose `retry_possible` is
true exactly when the failure is a raised HTTP error whose status code lies
in a transient class; every other failure — bad request, auth failure, an
unexpected response status, or an unknown exception (wrapped with code
"unknown") — is non-retryable. -/
theorem retry_possible_iff_transient :
    transientStatusCodes = transientClasses ∧
    (∀ (backend : Backend) (q : String) (e : QueryError),
      executeQuery backend q = .err e →
      (e.retry_possible = true ↔
        ∃ sc ec msg, backend q = .raiseHttp sc ec msg ∧
          (match sc with
            | Option.some n => n
            | Option.none => 0) ∈ transientClasses)) ∧
    (∀ (backend : Backend) (q msg : String),
      backend q = .raiseOther msg →
      executeQuery backend q = .err ⟨"unknown", msg.take 500, false⟩) := by
  refine ⟨by decide, ?_, ?_⟩
  · intro backend q e he
    cases hb : backend q with
    | respond r =>
      cases hr : r.status with
      | success =>
        simp only [executeQuery, hb, hr] at he
        exact ExecResult.noConfusion he
      | incomplete =>
        simp only [executeQuery, hb, hr] at he
        exact ExecResult.noConfusion he
      | unexpected s =>
        simp only [executeQuery, hb, hr, ExecResult.err.injEq] at he
        subst he
        constructor
        · intro hfalse; simp at hfalse
        · rintro ⟨sc, ec, m, hcontra, -⟩
          exact BackendOutcome.noConfusion hcontra
    | raiseHttp sc ec msg =>
      simp only [executeQuery, hb, ExecResult.err.injEq] at he
      subst he
      constructor
      · intro htrue
        refine ⟨sc, ec, msg, rfl, ?_⟩
        have := of_decide_eq_true htrue
        simpa [transientStatusCodes, transientClasses] using this
      · rintro ⟨sc', ec', m', heq, hmem⟩
        injection heq with h1 h2 h3
        subst h1
        exact decide_eq_true (by simpa [transientClasses, transientStatusCodes] using hmem)
    | raiseOther msg =>
      simp only [executeQuery, hb, ExecResult.err.injEq] at he
      subst he
      constructor
      · intro hfalse; simp at hfalse
      · rintro ⟨sc, ec, m, hcontra, -⟩
        exact BackendOutcome.noConfusion hcontra
  · intro backend q msg hb
    simp only [executeQuery, hb]

/-- Witness for C3: a rate-limited failure (HTTP 429) is retryable, a bad
request (HTTP 400) and an unknown exception are not (messages are clipped
to 500 characters as in the handler). -/
theorem retry_possible_iff_transient_witness :
    (executeQuery (fun _ => .raiseHttp (Option.some 429) (Option.some "rate") "slow down") "q"
      = .err ⟨"rate", "slow down".take 500, true⟩) ∧
    (executeQuery (fun _ => .raiseHttp (Option.some 400) (Option.some "bad_request") "no") "q"
      = .err ⟨"bad_request", "no".take 500, false⟩) ∧
    (executeQuery (fun _ => .raiseOther "surprise") "q"
      = .err ⟨"unknown", "surprise".take 500, false⟩) := by
  refine ⟨by rfl, by rfl, ?_⟩
  exact retry_possible_iff_transient.2.2 (fun _ => .raiseOther "surprise") "q" "surprise" rfl

/-- C1: every tool handler funnels its executor call through
`callWithRetry`, which invokes the underlying operation at most twice,
invokes it a second time exactly when the first attempt returned a
`QueryError` with `retry_possible=true`, returns the serialization of
whatever the second attempt produced when it retried, and returns a
non-retryable error (serialized) after exactly one invocation. -/
theorem dispatcher_single_retry {α : Type} (ser : α → PyVal)
    (method : Nat → Except PyExc (SCR α)) :
    (callWithRetry ser method).2 ≤ 2 ∧
    ((callWithRetry ser method).2 = 2 ↔
      ∃ qe, method 0 = .ok (.err qe) ∧ qe.retry_possible = true) ∧
    ((callWithRetry ser method).2 = 2 →
      (callWithRetry ser method).1 = (method 1).map (scrToDict ser)) ∧
    (∀ qe, method 0 = .ok (.err qe) → qe.retry_possible = false →
      (callWithRetry ser method).2 = 1 ∧
      (callWithRetry ser method).1 = .ok (scrToDict ser (.err qe))) := by
  unfold callWithRetry
  cases h0 : method 0 with
  | error e =>
    refine ⟨by simp, ⟨by simp, ?_⟩, by simp, ?_⟩
    · rintro ⟨qe, hqe, -⟩; exact Except.noConfusion hqe
    · intro qe hqe; exact Except.noConfusion hqe
  | ok r =>
    cases r with
    | err qe =>
      by_cases hretry : qe.retry_possible
      · simp only [hretry, if_true]
        cases h1 : method 1 with
        | error e =>
          refine ⟨by simp, ⟨fun _ => ⟨qe, rfl, hretry⟩, fun _ => by simp⟩, ?_, ?_⟩
          · intro _; simp [h1, Except.map]
          · intro qe' hqe' hfalse
            injection hqe' with h
            injection h with h
            subst h
            exact absurd hretry (by simp [hfalse])
        | ok r2 =>
          refine ⟨by simp, ⟨fun _ => ⟨qe, rfl, hretry⟩, fun _ => by simp⟩, ?_, ?_⟩
          · intro _; simp [h1, Except.map]
          · intro qe' hqe' hfalse
            injection hqe' with h
            injection h with h
            subst h
            exact absurd hretry (by simp [hfalse])
      · simp only [hretry, if_false]
        refine ⟨by simp, ⟨by simp, ?_⟩, by simp, ?_⟩
        · rintro ⟨qe', hqe', hr'⟩
          injection hqe' with h
          injection h with h
          subst h
          exact absurd hr' (by simpa using hretry)
        · intro qe' hqe' _
          injection hqe' with h
          injection h with h
          subst h
          exact ⟨rfl, rfl⟩
    | ok qr =>
      refine ⟨by simp, ⟨by simp, ?_⟩, by simp, ?_⟩
      · rintro ⟨qe, hqe, -⟩
        injection hqe with h
        exact SCR.noConfusion h
      · intro qe hqe
        injection hqe with h
        exact SCR.noConfusion h

/-- Witness for C1: a retryable error followed by a success yields the
serialized success after exactly two attempts; the claim theorem's
retry-count clause is applied at that concrete attempt sequence. -/
theorem dispatcher_single_retry_witness :
    (callWithRetry (fun _ : Unit => PyVal.none)
      (fun i => if i = 0 then .ok (.err ⟨"throttled", "busy", true⟩)
                else .ok (.ok ⟨⟨0, 0, false, Option.none⟩, []⟩))).2 = 2 :=
  (dispatcher_single_retry (fun _ : Unit => PyVal.none)
      (fun i => if i = 0 then .ok (.err ⟨"throttled", "busy", true⟩)
                else .ok (.ok ⟨⟨0, 0, false, Option.none⟩, []⟩))).2.1.mpr
    ⟨⟨"throttled", "busy", true⟩, rfl, rfl⟩

/-- C5: `build_query` on an unregistered name fails with the
unknown-template error; on a registered name with unfilled placeholders it
fails with an error naming exactly the full sorted set of missing
placeholders (membership in the reported set is equivalent to being an
unsupplied placeholder — never just the first one); and with every
placeholder supplied it renders the query without error.  Nine templates
are registered. -/
theorem build_query_contract :
    registryKeys.length = 9 ∧
    (∀ name params, name ∉ registryKeys →
      buildQuery name params = .error (.valueError
        ("Unknown template: " ++ sq ++ name ++ sq ++ ". Available: " ++
          pyReprStrList (sortStrs registryKeys)))) ∧
    (∀ name params, name ∈ registryKeys →
      missingOf (registryGet name) params ≠ [] →
      buildQuery name params = .error (.valueError
        ("Missing required parameters for " ++ sq ++ name ++ sq ++ ": " ++
          pyReprStrList (missingOf (registryGet name) params))) ∧
      (∀ p, p ∈ missingOf (registryGet name) params ↔
        (p ∈ placeholdersOf (registryGet name) ∧ p ∉ params.map Prod.fst))) ∧
    (∀ name params, name ∈ registryKeys →
      (∀ p ∈ placeholdersOf (registryGet name), p ∈ params.map Prod.fst) →
      ∃ s, buildQuery name params = .ok s) := by
  refine ⟨by decide, ?_, ?_, buildQuery_renders⟩
  · intro name params hname
    unfold buildQuery
    simp [hname]
  · intro name params hname hmiss
    refine ⟨?_, fun p => mem_missingOf p _ params⟩
    unfold buildQuery
    simp [hname, hmiss]

set_option maxRecDepth 8000 in
/-- Witness for C5: the incident-list template with no parameters reports
all three of its placeholders (sorted), an unregistered name errors, and a
fully-supplied build renders. -/
theorem build_query_contract_witness :
    missingOf (registryGet "list_incidents") [] =
      ["limit", "severity_filter", "time_range"] ∧
    buildQuery "list_incidents" [] = .error (.valueError
      ("Missing required parameters for " ++ sq ++ "list_incidents" ++ sq ++ ": " ++
        pyReprStrList (missingOf (registryGet "list_incidents") []))) ∧
    buildQuery "not_a_template" [] = .error (.valueError
      ("Unknown template: " ++ sq ++ "not_a_template" ++ sq ++ ". Available: " ++
        pyReprStrList (sortStrs registryKeys))) ∧
    (∃ s, buildQuery "get_incident_by_number"
      [("incident_number", .int 42)] = .ok s) := by
  refine ⟨by decide, ?_, ?_, ?_⟩
  · exact (build_query_contract.2.2.1 "list_incidents" [] (by decide) (by decide)).1
  · exact build_query_contract.2.1 "not_a_template" [] (by decide)
  · exact build_query_contract.2.2.2 "get_incident_by_number"
      [("incident_number", .int 42)] (by decide) (by decide)

set_option maxRecDepth 8000 in
/-- C2 counterexample: the claim "each public executor operation never
propagates a raw exception for every backend behaviour, including malformed
rows" is false as stated.  A backend that answers the incident-list query
with a success response whose `IncidentNumber` cell holds the non-numeric
string "abc" makes `query_incidents` raise `ValueError` out of
`int(row_dict.get("IncidentNumber", 0))` — the exception escapes the public
boundary instead of being wrapped as a `QueryError`. -/
theorem executor_exception_counterexample :
    (queryIncidents
      (fun _ => .respond ⟨.success, [⟨["IncidentNumber"], [[.str "abc"]]⟩],
        [], Option.none, Option.none⟩)
      0 (.str "last_24h") (.str "Informational") (.int 20)).1 =
    .error (.valueError
      ("invalid literal for int() with base 10: " ++ sq ++ "abc" ++ sq)) := by
  rfl

/-- C2 (amended): each public executor operation returns a `QueryResult`
or `QueryError` — never a raised exception — provided its `time_window`
argument is hashable (not a JSON array/object), its `limit` argument is
numeric, and the backend rows keep the integer-typed cells
(`IncidentNumber`, `Count`, `AlertCount`) convertible by `int(...)`;
`query_alerts` needs no backend condition at all.  Outside those
conditions a raw exception does cross the public boundary: an unhashable
`time_window` raises `TypeError` from the `in TIME_WINDOWS` test, and a
string `limit` raises `TypeError` from `min(limit, ...)` even for a valid
window — in both cases before any backend query is issued.  An unknown
exception raised by the backend call itself is always wrapped as the
generic non-retryable `QueryError` with code "unknown". -/
theorem executor_no_raise_amended :
    (∀ (backend : Backend) (now : Int) (tw sev lim : PyVal)
       (w : Option String) (v : PyVal),
      timeWindowKey? tw = .ok w → pyMin lim (maxLimit "alert_list") = .ok v →
      ∃ res, (queryAlerts backend now tw sev lim).1 = .ok res) ∧
    (∀ (backend : Backend) (now : Int), backendIntOk backend →
      (∀ (tw sev lim : PyVal) (w : Option String) (v : PyVal),
        timeWindowKey? tw = .ok w →
        pyMin lim (maxLimit "incident_list") = .ok v →
        ∃ res, (queryIncidents backend now tw sev lim).1 = .ok res) ∧
      (∀ (tw sev bin : PyVal) (w : Option String),
        timeWindowKey? tw = .ok w →
        ∃ res, (getAlertTrend backend now tw sev bin).1 = .ok res) ∧
      (∀ (tw sev lim : PyVal) (w : Option String) (v : PyVal),
        timeWindowKey? tw = .ok w →
        pyMin lim (maxLimit "top_entities") = .ok v →
        ∃ res, (getTopEntities backend now tw sev lim).1 = .ok res) ∧
      (∀ ref : PyVal,
        ∃ res, (getIncidentDetail backend now ref).1 = .ok res)) ∧
    (∀ (backend : Backend) (now : Int) (sev lim : PyVal) (l : List PyVal),
      queryAlerts backend now (.list l) sev lim =
        (.error (.typeError ("unhashable type: " ++ sq ++ "list" ++ sq)), []) ∧
      queryIncidents backend now (.list l) sev lim =
        (.error (.typeError ("unhashable type: " ++ sq ++ "list" ++ sq)), [])) ∧
    (∀ (backend : Backend) (now : Int) (sev : PyVal) (s : String),
      queryAlerts backend now (.str "last_24h") sev (.str s) =
        (.error (.typeError "unsupported operand types for comparison"), [])) ∧
    (∀ (backend : Backend) (q msg : String),
      backend q = .raiseOther msg →
      executeQuery backend q = .err ⟨"unknown", msg.take 500, false⟩) := by
  refine ⟨queryAlerts_total, ?_, ?_, ?_, ?_⟩
  · intro backend now hB
    exact ⟨fun tw sev lim w v htw hlim =>
        queryIncidents_total backend now tw sev lim w v hB htw hlim,
      fun tw sev bin w htw => getAlertTrend_total backend now tw sev bin w hB htw,
      fun tw sev lim w v htw hlim =>
        getTopEntities_total backend now tw sev lim w v hB htw hlim,
      fun ref => getIncidentDetail_total backend now ref hB⟩
  · intro backend now sev lim l
    exact ⟨rfl, rfl⟩
  · intro backend now sev s
    rfl
  · intro backend q msg hb
    simp only [executeQuery, hb]

/-- Witness for C2 (amended): a backend answering every query with one
well-typed incident row satisfies the int-convertibility condition, the
key "last_24h" passes the hash-and-membership test, the integer limit 20
clamps without error, and `query_incidents` then returns without
raising. -/
theorem executor_no_raise_amended_witness :
    timeWindowKey? (.str "last_24h") = .ok (Option.some "last_24h") ∧
    pyMin (.int 20) (maxLimit "incident_list") = .ok (.int 20) ∧
    ((queryIncidents
      (fun _ => .respond ⟨.success,
        [⟨["IncidentNumber", "Title"], [[.int 7, .str "Phishing"]]⟩],
        [], Option.none, Option.none⟩)
      0 (.str "last_24h") (.str "High") (.int 20)).1).isOk = true := by
  have hB : backendIntOk
      (fun _ => .respond ⟨.success,
        [⟨["IncidentNumber", "Title"], [[.int 7, .str "Phishing"]]⟩],
        [], Option.none, Option.none⟩) := by
    intro q r h
    injection h with h
    subst h
    constructor
    · intro t ht row hrow
      fin_cases ht
      fin_cases hrow
      exact ⟨rfl, rfl, rfl⟩
    · intro t ht
      simp at ht
  refine ⟨rfl, rfl, ?_⟩
  rcases (executor_no_raise_amended.2.1 _ 0 hB).1 (.str "last_24h") (.str "High")
    (.int 20) (Option.some "last_24h") (.int 20) rfl rfl
    with ⟨res, hres⟩
  rw [hres]
  rfl

theorem lookup_entity_count_list (i : Incident) :
    lookupLast "entity_count" (applyProjection i.to_dict "incident_list") =
      Option.some (.int i.entity_count) := rfl

theorem lookup_entity_count_detail (i : Incident) :
    lookupLast "entity_count" (applyProjection i.to_dict "incident_detail") =
      Option.some (.int i.entity_count) := rfl

theorem lookup_number_detail (i : Incident) :
    lookupLast "number" (applyProjection i.to_dict "incident_detail") =
      Option.some (.int i.number) := rfl

/-- C9: every incident record in a `query_incidents` (list view) result
carries `entity_count = 0`, while an incident in the `get_incident_detail`
envelope carries `entity_count` equal to the row count parsed from its own
distinct-entity sub-query (0 when that sub-query errored, since the parsed
incident starts at 0). -/
theorem entity_count_list_detail_asymmetry :
    (∀ (backend : Backend) (now : Int) (tw sev lim : PyVal)
       (r : QueryResult (List (String × PyVal))),
      (queryIncidents backend now tw sev lim).1 = .ok (.ok r) →
      ∀ d ∈ r.results, lookupLast "entity_count" d = Option.some (.int 0)) ∧
    (∀ (backend : Backend) (now : Int) (ref : PyVal) (r : QueryResult PyVal),
      (getIncidentDetail backend now ref).1 = .ok (.ok r) →
      ∀ v ∈ r.results, ∃ pincs palerts pents,
        v = PyVal.dict [("incidents", .list pincs), ("alerts", .list palerts),
                        ("entities", .list pents)] ∧
        ∀ pd ∈ pincs, ∃ (d : List (String × PyVal)) (n : Int),
          pd = PyVal.dict d ∧
          lookupLast "number" d = Option.some (.int n) ∧
          lookupLast "entity_count" d = Option.some (.int
            (match executeQuery backend (entitiesQueryStr n) with
             | .rows t _ _ _ => ((parseEntities t).length : Int)
             | .err _ => 0))) := by
  constructor
  · intro backend now tw sev lim r h d hd
    rcases hk : timeWindowKey? tw with e | (_ | key)
    · simp only [queryIncidents, hk] at h
      exact Except.noConfusion h
    · simp only [queryIncidents, hk, Except.ok.injEq] at h
      exact SCR.noConfusion h
    · cases hmin : pyMin lim (maxLimit "incident_list") with
      | error e =>
        simp only [queryIncidents, hk, hmin] at h
        exact Except.noConfusion h
      | ok lim' =>
        cases hbq : buildQuery "list_incidents"
            [("time_range", .str (timeWindowGet key).kql_ago),
             ("severity_filter", .str (severityFilter sev)),
             ("limit", lim')] with
        | error e =>
          simp only [queryIncidents, hk, hmin, hbq] at h
          exact Except.noConfusion h
        | ok q =>
          cases hex : executeQuery backend q with
          | err qe =>
            simp only [queryIncidents, hk, hmin, hbq, hex, Except.ok.injEq] at h
            exact SCR.noConfusion h
          | rows tables tr pe ms =>
            cases hp : parseIncidents now tables false with
            | error e =>
              simp only [queryIncidents, hk, hmin, hbq, hex, hp] at h
              exact Except.noConfusion h
            | ok incs =>
              simp only [queryIncidents, hk, hmin, hbq, hex, hp, Except.ok.injEq,
                SCR.ok.injEq] at h
              rw [← h] at hd
              simp only [List.mem_map] at hd
              rcases hd with ⟨i, hi, hdd⟩
              rw [← hdd, lookup_entity_count_list i,
                parseIncidents_entity_count hp i hi]
  · intro backend now ref r h v hv
    cases hpq : primaryQuery ref with
    | error e =>
      simp only [getIncidentDetail, hpq] at h
      exact Except.noConfusion h
    | ok q =>
      cases hex : executeQuery backend q with
      | err qe =>
        simp only [getIncidentDetail, hpq, hex, Except.ok.injEq] at h
        exact SCR.noConfusion h
      | rows tables tr pe ms =>
        cases hp : parseIncidents now tables true with
        | error e =>
          simp only [getIncidentDetail, hpq, hex, hp] at h
          exact Except.noConfusion h
        | ok incs =>
          cases hdl : detailLoop backend now incs with
          | error e =>
            simp only [getIncidentDetail, hpq, hex, hp, hdl] at h
            exact Except.noConfusion h
          | ok out =>
            obtain ⟨allA, allE, updInc, qs⟩ := out
            rcases detailLoop_spec backend now incs (allA, allE, updInc, qs) hdl
              with ⟨-, -, ihi⟩
            dsimp only at ihi
            simp only [getIncidentDetail, hpq, hex, hp, hdl, Except.ok.injEq,
              SCR.ok.injEq] at h
            rw [← h] at hv
            simp only [List.mem_singleton] at hv
            refine ⟨(updInc.map (fun i =>
                applyProjection i.to_dict "incident_detail")).map PyVal.dict,
              (allA.map (fun a =>
                applyProjection a.to_dict "alert_list")).map PyVal.dict,
              allE.map PyVal.dict, hv, ?_⟩
            intro pd hpd
            simp only [List.mem_map] at hpd
            rcases hpd with ⟨u, hu, hpdd⟩
            rcases hu with ⟨u0, hu0, huu⟩
            rw [ihi] at hu0
            simp only [List.mem_map] at hu0
            rcases hu0 with ⟨inc, hinc, hginc⟩
            refine ⟨applyProjection u0.to_dict "incident_detail", inc.number,
              by rw [← hpdd, ← huu], ?_, ?_⟩
            · rw [lookup_number_detail u0, ← hginc]
              cases hsub : executeQuery backend (entitiesQueryStr inc.number) <;>
                simp [hsub]
            · rw [lookup_entity_count_detail u0, ← hginc]
              cases hsub : executeQuery backend (entitiesQueryStr inc.number) with
              | err e => simp [hsub, parseIncidents_entity_count hp inc hinc]
              | rows t tr2 pe2 ms2 => simp [hsub]

/-- Backend for the C9 witness: one incident (number 5) whose entity
sub-query returns three distinct rows and whose alert sub-query returns
none. -/
def c9Backend : Backend := fun q =>
  if q = entitiesQueryStr 5 then
    .respond ⟨.success, [⟨["EntityType", "EntityName"],
      [[.str "account", .str "alice"],
       [.str "ip", .str "10.0.0.1"],
       [.str "host", .str "web01"]]⟩], [], Option.none, Option.none⟩
  else if q = alertsQueryStr 5 then
    .respond ⟨.success, [], [], Option.none, Option.none⟩
  else
    .respond ⟨.success, [⟨["IncidentNumber"], [[.int 5]]⟩], [],
      Option.none, Option.none⟩

def c9ListBackend : Backend := fun _ =>
  .respond ⟨.success, [⟨["IncidentNumber", "Title"], [[.int 5, .str "Phish"]]⟩],
    [], Option.none, Option.none⟩

def c9ListRes : QueryResult (List (String × PyVal)) :=
  match (queryIncidents c9ListBackend 0 (.str "last_24h") (.str "Informational")
      (.int 20)).1 with
  | .ok (.ok r) => r
  | _ => ⟨⟨0, 0, false, Option.none⟩, []⟩

set_option maxRecDepth 8000 in
/-- Witness for C9: the single listed incident carries `entity_count = 0`
(via the claim theorem), and the same incident fetched through the detail
operation with a 3-row entity sub-query carries `entity_count = 3`. -/
theorem entity_count_list_detail_asymmetry_witness :
    lookupLast "entity_count" (c9ListRes.results.headD []) =
      Option.some (.int 0) ∧
    (match (getIncidentDetail c9Backend 0 (.int 5)).1 with
     | .ok (.ok r) =>
       (match r.results with
        | [PyVal.dict kvs] =>
          (match lookupLast "incidents" kvs with
           | Option.some (.list [PyVal.dict d]) => lookupLast "entity_count" d
           | _ => Option.none)
        | _ => Option.none)
     | _ => Option.none) = Option.some (.int 3) := by
  constructor
  · have hres : c9ListRes.results = [c9ListRes.results.headD []] := rfl
    refine entity_count_list_detail_asymmetry.1 c9ListBackend 0 (.str "last_24h")
      (.str "Informational") (.int 20) c9ListRes rfl
      (c9ListRes.results.headD []) ?_
    rw [hres]
    exact List.mem_singleton.mpr rfl
  · rfl

/-- C10: whenever the primary lookup of `get_incident_detail` succeeds
and its rows parse, the composite returns a `QueryResult` (never an
error) for EVERY behaviour of the dependent sub-queries, and the envelope
is assembled per incident: each matched incident appears as
`detailIncidentOf` (its `entity_count` backfilled only by a successful
entities sub-query), and the alerts and entities lists concatenate the
per-incident contributions `alertContrib` / `entityContrib`.  In
particular — covering mixed cases where one sub-query of an incident
fails while the other (or another incident's) succeeds — an incident
whose alerts sub-query errors contributes no alerts, and one whose
entities sub-query errors contributes no entities and keeps
`entity_count = 0` as parsed. -/
theorem detail_tolerates_subquery_errors :
    ∀ (backend : Backend) (now : Int) (ref : PyVal) (q : String)
      (tables : List LogsTable) (tr : Bool) (pe : Option String) (ms : ℚ)
      (incs : List Incident),
      primaryQuery ref = .ok q →
      executeQuery backend q = .rows tables tr pe ms →
      parseIncidents now tables true = .ok incs →
      (getIncidentDetail backend now ref).1 = .ok (.ok
        ⟨⟨incs.length, ms, tr, pe⟩,
         [PyVal.dict
           [("incidents", .list (((incs.map (detailIncidentOf backend)).map
              (fun i => applyProjection i.to_dict "incident_detail")).map
                PyVal.dict)),
            ("alerts", .list ((((incs.map (alertContrib backend now)).flatten).map
              (fun a => applyProjection a.to_dict "alert_list")).map PyVal.dict)),
            ("entities", .list (((incs.map (entityContrib backend)).flatten).map
              PyVal.dict))]]⟩) ∧
      (∀ inc ∈ incs,
        (∀ e, executeQuery backend (alertsQueryStr inc.number) = .err e →
          alertContrib backend now inc = []) ∧
        (∀ e, executeQuery backend (entitiesQueryStr inc.number) = .err e →
          entityContrib backend inc = [] ∧
          detailIncidentOf backend inc = inc ∧
          inc.entity_count = 0)) := by
  intro backend now ref q tables tr pe ms incs hpq hex hp
  rcases detailLoop_ok backend now incs with ⟨out, hdl⟩
  obtain ⟨allA, allE, updInc, qs⟩ := out
  rcases detailLoop_spec backend now incs (allA, allE, updInc, qs) hdl
    with ⟨iha, ihe, ihi⟩
  dsimp only at iha ihe ihi
  have iha2 : allA = (incs.map (alertContrib backend now)).flatten := by
    rw [iha]
    exact congrArg List.flatten
      (List.map_congr_left (fun inc _ => alertContrib_eq backend now inc))
  have ihe2 : allE = (incs.map (entityContrib backend)).flatten := by
    rw [ihe]
    exact congrArg List.flatten
      (List.map_congr_left (fun inc _ => entityContrib_eq backend inc))
  have ihi2 : updInc = incs.map (detailIncidentOf backend) := by
    rw [ihi]
    exact List.map_congr_left (fun inc _ => detailIncidentOf_eq backend inc)
  constructor
  · simp only [getIncidentDetail, hpq, hex, hp, hdl, iha2, ihe2, ihi2,
      List.length_map]
  · intro inc hinc
    refine ⟨?_, ?_⟩
    · intro e he
      simp [alertContrib, he]
    · intro e he
      exact ⟨by simp [entityContrib, he], by simp [detailIncidentOf, he],
        parseIncidents_entity_count hp inc hinc⟩

/-- The rendered primary query of the C10 witness lookup. -/
def c10Q : String :=
  match primaryQuery (.int 5) with
  | .ok s => s
  | .error _ => ""

/-- Backend for the C10 witness, set up for a mixed case over two matched
incidents: the primary lookup succeeds with incident rows 5 and 6;
incident 5's entities sub-query succeeds with two rows while its alerts
sub-query fails with HTTP 400; incident 6's alerts sub-query succeeds
with one row while its entities sub-query fails. -/
def c10Backend : Backend := fun q =>
  if q = c10Q then
    .respond ⟨.success, [⟨["IncidentNumber"], [[.int 5], [.int 6]]⟩], [],
      Option.none, Option.none⟩
  else if q = entitiesQueryStr 5 then
    .respond ⟨.success, [⟨["EntityType", "EntityName"],
      [[.str "Account", .str "alice"], [.str "Host", .str "web01"]]⟩], [],
      Option.none, Option.none⟩
  else if q = alertsQueryStr 6 then
    .respond ⟨.success, [⟨["AlertName"], [[.str "Brute force"]]⟩], [],
      Option.none, Option.none⟩
  else .raiseHttp (Option.some 400) (Option.some "bad_request") "denied"

def c10Tables : List LogsTable := [⟨["IncidentNumber"], [[.int 5], [.int 6]]⟩]

def c10Incs : List Incident :=
  match parseIncidents 0 c10Tables true with
  | .ok xs => xs
  | .error _ => []

def dummyIncident : Incident :=
  ⟨0, "", "", "", 0, 0, "", .str "", 0, 0, Option.none, Option.none,
   Option.none, "", "", "", Option.none, "", ""⟩

set_option maxRecDepth 8000 in
/-- Witness for C10, exercising the mixed case: the composite lookup
returns the per-incident envelope; incident 5 (alerts sub-query errored,
entities succeeded) contributes no alerts and gets `entity_count = 2`;
incident 6 (entities sub-query errored, alerts succeeded) contributes no
entities and keeps `entity_count = 0`. -/
theorem detail_tolerates_subquery_errors_witness :
    (getIncidentDetail c10Backend 0 (.int 5)).1 = .ok (.ok
      ⟨⟨c10Incs.length, 0, false, Option.none⟩,
       [PyVal.dict
         [("incidents", .list (((c10Incs.map (detailIncidentOf c10Backend)).map
            (fun i => applyProjection i.to_dict "incident_detail")).map
              PyVal.dict)),
          ("alerts", .list ((((c10Incs.map (alertContrib c10Backend 0)).flatten).map
            (fun a => applyProjection a.to_dict "alert_list")).map PyVal.dict)),
          ("entities", .list (((c10Incs.map (entityContrib c10Backend)).flatten).map
            PyVal.dict))]]⟩) ∧
    alertContrib c10Backend 0 (c10Incs.headD dummyIncident) = [] ∧
    (detailIncidentOf c10Backend (c10Incs.headD dummyIncident)).entity_count = 2 ∧
    entityContrib c10Backend ((c10Incs.drop 1).headD dummyIncident) = [] ∧
    (detailIncidentOf c10Backend
      ((c10Incs.drop 1).headD dummyIncident)).entity_count = 0 := by
  refine ⟨(detail_tolerates_subquery_errors c10Backend 0 (.int 5) c10Q c10Tables
    false Option.none 0 c10Incs rfl rfl rfl).1, rfl, rfl, rfl, rfl⟩

/-- When the model requests tools on every round and every requested tool
call executes, the tool loop runs all its rounds without breaking and makes
exactly one model call per round. -/
theorem toolLoop_runs_all (model : ModelSvc) (backend : Backend) (now : Int) :
    ∀ (K : Nat) (msgs : List ChatMsg) (idx0 : Nat),
      (∀ i < K, (model (idx0 + i) true).tool_calls ≠ []) →
      (∀ i < K, (runToolCalls backend now (model (idx0 + i) true).tool_calls).isOk = true) →
      ∃ msgs', toolLoop model backend now K msgs idx0 = (.ok (msgs', false), idx0 + K) := by
  intro K
  induction K with
  | zero =>
    intro msgs idx0 _ _
    exact ⟨msgs, by simp [toolLoop]⟩
  | succ K ih =>
    intro msgs idx0 h1 h2
    have hne : (model (idx0 + 0) true).tool_calls ≠ [] := h1 0 (Nat.succ_pos K)
    have hok : (runToolCalls backend now (model (idx0 + 0) true).tool_calls).isOk = true :=
      h2 0 (Nat.succ_pos K)
    rw [Nat.add_zero] at hne hok
    cases hrun : runToolCalls backend now (model idx0 true).tool_calls with
    | error e => rw [hrun] at hok; exact Bool.noConfusion hok
    | ok tms =>
      have hempty : (model idx0 true).tool_calls.isEmpty = false := by
        cases hcs : (model idx0 true).tool_calls with
        | nil => exact absurd hcs hne
        | cons a as => rfl
      rcases ih (msgs ++ [assistantMsg (model idx0 true).content
            (model idx0 true).tool_calls] ++ tms) (idx0 + 1)
          (fun i hi => by
            have hix : idx0 + 1 + i = idx0 + (i + 1) := by omega
            rw [hix]
            exact h1 (i + 1) (Nat.succ_lt_succ hi))
          (fun i hi => by
            have hix : idx0 + 1 + i = idx0 + (i + 1) := by omega
            rw [hix]
            exact h2 (i + 1) (Nat.succ_lt_succ hi)) with ⟨msgs', hloop⟩
      refine ⟨msgs', ?_⟩
      simp only [toolLoop, hempty, Bool.false_eq_true, if_false, hrun, hloop]
      rw [Nat.add_assoc, Nat.add_comm 1 K]

/-- The trailing answer scan returns the content of a just-appended
assistant message whenever that content is non-empty. -/
theorem extractAnswer_append_assistant (xs : List ChatMsg) (c : String)
    (hc : c ≠ "") (tcs : List ToolCallDesc) :
    extractAnswer (xs ++ [assistantMsg (Option.some c) tcs]) = c := by
  simp [extractAnswer, assistantMsg, extractAnswerRev, hc]

/-! ## Claim theorems (conversation orchestrator) -/

set_option maxRecDepth 8000 in
/-- C7 counterexample: the claim that the synthetic final model call's
content is accepted as the final answer is false as stated.  With a round
budget of 1, a model that requests a tool (with content "partial-finding")
on its tool round and returns empty content on the final no-tools call:
`send_message` makes the expected 2 model calls but answers with the
EARLIER round's content, not the final call's (empty) content. -/
theorem round_budget_counterexample :
    (sendMessage
      (fun i tools =>
        if tools then
          ⟨Option.some "partial-finding",
           [⟨"call-" ++ toString i, "query_incidents", "\x7b\x7d"⟩]⟩
        else ⟨Option.none, []⟩)
      (fun _ => .respond ⟨.success, [], [], Option.none, Option.none⟩)
      0 1 30 SessionState.initial "q" 0).2 = 2 ∧
    ((fun (i : Nat) (tools : Bool) =>
        if tools then
          (⟨Option.some "partial-finding",
           [⟨"call-" ++ toString i, "query_incidents", "\x7b\x7d"⟩]⟩ : ModelMsg)
        else ⟨Option.none, []⟩) 1 false).content = Option.none ∧
    (match (sendMessage
      (fun i tools =>
        if tools then
          ⟨Option.some "partial-finding",
           [⟨"call-" ++ toString i, "query_incidents", "\x7b\x7d"⟩]⟩
        else ⟨Option.none, []⟩)
      (fun _ => .respond ⟨.success, [], [], Option.none, Option.none⟩)
      0 1 30 SessionState.initial "q" 0).1 with
     | .ok (ans, _) => ans
     | .error _ => "ERR") = "partial-finding" := by
  refine ⟨by decide, rfl, by decide⟩

/-- C7 (amended): for a model that requests at least one tool call on
every round and whose requested tool calls all execute without a
Python-level error, a user message with round budget K makes exactly K+1
model calls — K with the tool schema and one final call without it — and
when the final call's content is non-empty, that content is returned as
the answer (an empty final content instead falls back to the most recent
non-empty assistant content). -/
theorem round_budget_amended (model : ModelSvc) (backend : Backend) (now : Int)
    (K maxTurns : Nat) (st : SessionState) (input : String) (idx0 : Nat)
    (h1 : ∀ i < K, (model (idx0 + i) true).tool_calls ≠ [])
    (h2 : ∀ i < K,
      (runToolCalls backend now (model (idx0 + i) true).tool_calls).isOk = true) :
    (sendMessage model backend now K maxTurns st input idx0).2 = idx0 + (K + 1) ∧
    ∃ ans st',
      (sendMessage model backend now K maxTurns st input idx0).1 = .ok (ans, st') ∧
      (∀ c, (model (idx0 + K) false).content = Option.some c → c ≠ "" → ans = c) := by
  rcases toolLoop_runs_all model backend now K
      (if maxTurns < st.turn_count + 1 then
        trimMessages maxTurns (st.messages ++ [userMsg input])
       else st.messages ++ [userMsg input]) idx0 h1 h2 with ⟨msgs', hloop⟩
  constructor
  · simp only [sendMessage, hloop, Bool.false_eq_true, if_false]
    omega
  · refine ⟨extractAnswer (msgs' ++ [userMsg MAX_ROUNDS_MESSAGE] ++
      [assistantMsg (model (idx0 + K) false).content []]),
      ⟨msgs' ++ [userMsg MAX_ROUNDS_MESSAGE] ++
        [assistantMsg (model (idx0 + K) false).content []], st.turn_count + 1⟩, ?_, ?_⟩
    · simp only [sendMessage, hloop, Bool.false_eq_true, if_false, List.append_assoc]
    · intro c hc hcne
      rw [hc, extractAnswer_append_assistant _ c hcne]

set_option maxRecDepth 8000 in
/-- Witness for C7 (amended): a model that always asks for
`query_incidents` for two rounds and then answers "FINAL" produces exactly
3 model calls and the answer "FINAL". -/
theorem round_budget_amended_witness :
    (sendMessage
      (fun i tools =>
        if tools then
          ⟨Option.some "", [⟨"c" ++ toString i, "query_incidents", "\x7b\x7d"⟩]⟩
        else ⟨Option.some "FINAL", []⟩)
      (fun _ => .respond ⟨.success, [], [], Option.none, Option.none⟩)
      0 2 30 SessionState.initial "q" 0).2 = 0 + (2 + 1) ∧
    (match (sendMessage
      (fun i tools =>
        if tools then
          ⟨Option.some "", [⟨"c" ++ toString i, "query_incidents", "\x7b\x7d"⟩]⟩
        else ⟨Option.some "FINAL", []⟩)
      (fun _ => .respond ⟨.success, [], [], Option.none, Option.none⟩)
      0 2 30 SessionState.initial "q" 0).1 with
     | .ok (ans, _) => ans
     | .error _ => "ERR") = "FINAL" := by
  have h := round_budget_amended
    (fun i tools =>
      if tools then
        ⟨Option.some "", [⟨"c" ++ toString i, "query_incidents", "\x7b\x7d"⟩]⟩
      else ⟨Option.some "FINAL", []⟩)
    (fun _ => .respond ⟨.success, [], [], Option.none, Option.none⟩)
    0 2 30 SessionState.initial "q" 0
    (by decide) (by decide)
  rcases h with ⟨hcount, ans, st', hres, hfinal⟩
  refine ⟨hcount, ?_⟩
  rw [hres, hfinal "FINAL" rfl (by decide)]

/-! ## History trimming lemmas -/

theorem trimLoop_succ_eq (target fuel : Nat) (msgs : List ChatMsg) :
    trimLoop target (fuel + 1) msgs =
      if msgs.length ≤ target then msgs
      else
        match (userIndices msgs).get? 1 with
        | Option.none => msgs
        | Option.some cut => trimLoop target fuel (msgs.drop cut) := rfl

theorem userIndices_sublist_range (msgs : List ChatMsg) :
    List.Sublist (userIndices msgs) (List.range msgs.length) := by
  have h1 : List.Sublist
      (msgs.enum.filter (fun p => p.2.role = "user")) msgs.enum :=
    List.filter_sublist msgs.enum
  have h2 := h1.map Prod.fst
  rwa [List.enum_map_fst] at h2

theorem userIndices_pairwise (msgs : List ChatMsg) :
    (userIndices msgs).Pairwise (· < ·) :=
  (List.pairwise_lt_range msgs.length).sublist (userIndices_sublist_range msgs)

theorem userIndices_mem_role (msgs : List ChatMsg) (c : Nat)
    (h : c ∈ userIndices msgs) :
    ∃ hh : c < msgs.length, (msgs.get ⟨c, hh⟩).role = "user" := by
  unfold userIndices at h
  rcases List.mem_map.mp h with ⟨pr, hmem, hfst⟩
  have hp : pr.2.role = "user" := by simpa using List.of_mem_filter hmem
  have hin : pr ∈ msgs.enum := List.mem_of_mem_filter hmem
  have hget : msgs[pr.1]? = Option.some pr.2 := List.mem_enum_iff_getElem?.mp hin
  rw [List.getElem?_eq_some] at hget
  rcases hget with ⟨hlt, hval⟩
  subst hfst
  refine ⟨hlt, ?_⟩
  rw [List.get_eq_getElem, hval, hp]

theorem second_user_index_pos (msgs : List ChatMsg) (c : Nat)
    (h : (userIndices msgs).get? 1 = Option.some c) : 1 ≤ c := by
  rw [List.get?_eq_some] at h
  rcases h with ⟨h1, hget⟩
  have h0 : (0 : Nat) < (userIndices msgs).length :=
    Nat.lt_of_le_of_lt (Nat.zero_le 1) h1
  have hlt := (List.pairwise_iff_get.mp (userIndices_pairwise msgs))
    ⟨0, h0⟩ ⟨1, h1⟩ (by simp)
  rw [hget] at hlt
  omega

theorem trimLoop_fuel_succ (target : Nat) :
    ∀ fuel msgs, msgs.length ≤ fuel →
      trimLoop target (fuel + 1) msgs = trimLoop target fuel msgs := by
  intro fuel
  induction fuel with
  | zero =>
    intro msgs hlen
    have hnil : msgs = [] := List.eq_nil_of_length_eq_zero (Nat.le_zero.mp hlen)
    subst hnil
    simp [trimLoop]
  | succ f ih =>
    intro msgs hlen
    rw [trimLoop_succ_eq, trimLoop_succ_eq]
    by_cases hle : msgs.length ≤ target
    · simp [hle]
    · rw [if_neg hle, if_neg hle]
      cases hcut : (userIndices msgs).get? 1 with
      | none => rfl
      | some c =>
        have hc1 : 1 ≤ c := second_user_index_pos msgs c hcut
        exact ih (msgs.drop c) (by rw [List.length_drop]; omega)

theorem trimLoop_fuel_ge (target : Nat) :
    ∀ k fuel msgs, msgs.length ≤ fuel →
      trimLoop target (fuel + k) msgs = trimLoop target fuel msgs := by
  intro k
  induction k with
  | zero => intro fuel msgs _; rfl
  | succ k ih =>
    intro fuel msgs h
    have he : fuel + (k + 1) = (fuel + k) + 1 := rfl
    rw [he, trimLoop_fuel_succ target (fuel + k) msgs
        (Nat.le_trans h (Nat.le_add_right fuel k)), ih fuel msgs h]

theorem trimLoop_fuel_eq (target fuel1 fuel2 : Nat) (msgs : List ChatMsg)
    (h1 : msgs.length ≤ fuel1) (h2 : msgs.length ≤ fuel2) :
    trimLoop target fuel1 msgs = trimLoop target fuel2 msgs := by
  have e1 : fuel1 = msgs.length + (fuel1 - msgs.length) := by omega
  have e2 : fuel2 = msgs.length + (fuel2 - msgs.length) := by omega
  rw [e1, e2,
      trimLoop_fuel_ge target (fuel1 - msgs.length) msgs.length msgs (Nat.le_refl _),
      trimLoop_fuel_ge target (fuel2 - msgs.length) msgs.length msgs (Nat.le_refl _)]

theorem trimLoop_boundary (target : Nat) :
    ∀ fuel msgs, ∃ d, trimLoop target fuel msgs = msgs.drop d ∧
      (d = 0 ∨ ∃ hh : d < msgs.length, (msgs.get ⟨d, hh⟩).role = "user") := by
  intro fuel
  induction fuel with
  | zero => intro msgs; exact ⟨0, by simp [trimLoop], Or.inl rfl⟩
  | succ f ih =>
    intro msgs
    rw [trimLoop_succ_eq]
    by_cases hle : msgs.length ≤ target
    · exact ⟨0, by simp [hle], Or.inl rfl⟩
    · rw [if_neg hle]
      cases hcut : (userIndices msgs).get? 1 with
      | none => exact ⟨0, by simp, Or.inl rfl⟩
      | some c =>
        rcases ih (msgs.drop c) with ⟨d, hd, hrole⟩
        refine ⟨c + d, ?_, ?_⟩
        · show trimLoop target f (msgs.drop c) = msgs.drop (c + d)
          rw [hd, List.drop_drop]
        · have hcmem : c ∈ userIndices msgs :=
            List.get?_mem hcut
          rcases userIndices_mem_role msgs c hcmem with ⟨hclt, hcrole⟩
          cases hrole with
          | inl h0 =>
            right
            refine ⟨by omega, ?_⟩
            have he : c + d = c := by omega
            simp only [he]
            exact hcrole
          | inr h =>
            rcases h with ⟨hh, hr⟩
            right
            have hlen : c + d < msgs.length := by
              rw [List.length_drop] at hh; omega
            refine ⟨hlen, ?_⟩
            rw [List.get_eq_getElem] at hr ⊢
            rw [List.getElem_drop] at hr
            exact hr

theorem trimLoop_post (target : Nat) :
    ∀ fuel msgs, msgs.length < fuel →
      (trimLoop target fuel msgs).length ≤ target ∨
        (userIndices (trimLoop target fuel msgs)).length < 2 := by
  intro fuel
  induction fuel with
  | zero => intro msgs h; omega
  | succ f ih =>
    intro msgs hlen
    rw [trimLoop_succ_eq]
    by_cases hle : msgs.length ≤ target
    · left; simpa [hle]
    · rw [if_neg hle]
      cases hcut : (userIndices msgs).get? 1 with
      | none =>
        right
        have hle1 : (userIndices msgs).length ≤ 1 := List.get?_eq_none.mp hcut
        simpa using Nat.lt_of_le_of_lt hle1 (by omega)
      | some c =>
        have hc1 : 1 ≤ c := second_user_index_pos msgs c hcut
        exact ih (msgs.drop c) (by rw [List.length_drop]; omega)

/-- A model that never requests tools and answers "r(i+1)" on its i-th call. -/
def c8Model : ModelSvc := fun i _ => ⟨Option.some ("r" ++ toString (i + 1)), []⟩

def c8Backend : Backend := fun _ =>
  .respond ⟨.success, [], [], Option.none, Option.none⟩

/-- Session state after one `send_message` turn (max_tool_rounds=5, max_turns=2). -/
def c8StateAfter (st : SessionState) (input : String) (idx : Nat) : SessionState :=
  match (sendMessage c8Model c8Backend 0 5 2 st input idx).1 with
  | .ok (_, st2) => st2
  | .error _ => st

/-- State after three sequential user turns "m1","m2","m3" with max_turns=2. -/
def c8Final : SessionState :=
  c8StateAfter (c8StateAfter (c8StateAfter SessionState.initial "m1" 0) "m2" 1) "m3" 2

set_option maxRecDepth 8000 in
/-- C8: history trimming invariants of `ChatSession._trim_messages`.
(i) While the history exceeds `max_turns * 2` and a second user message
exists at index `cut`, everything before `cut` is dropped in one cut and
trimming continues on the remainder. (ii) With fewer than two user
messages, trimming returns the history unchanged (no error), even if it is
over budget. (iii) The result is a suffix of the input obtained by
dropping a prefix that ends at a user-message boundary; consequently a cut
never lands strictly inside a block of consecutive tool-result messages,
so an assistant message carrying tool calls is never separated from its
following tool results. (iv) On exit the history meets the budget or has
fewer than two user messages. (v) Concretely, with max_turns=2, after 3
sequential user turns the history is exactly the last two turns: it
excludes the first turn and includes the third. -/
theorem trim_messages_invariants (maxTurns : Nat) (msgs : List ChatMsg) :
    (∀ cut, maxTurns * 2 < msgs.length →
        (userIndices msgs).get? 1 = Option.some cut →
        trimMessages maxTurns msgs = trimMessages maxTurns (msgs.drop cut)) ∧
    ((userIndices msgs).length < 2 → trimMessages maxTurns msgs = msgs) ∧
    (∃ d, trimMessages maxTurns msgs = msgs.drop d ∧
        (d = 0 ∨ ∃ hh : d < msgs.length, (msgs.get ⟨d, hh⟩).role = "user") ∧
        (∀ j k : Nat,
          (∀ i (hi : i < msgs.length), j < i → i ≤ j + k →
            (msgs.get ⟨i, hi⟩).role = "tool") →
          ¬(j < d ∧ d ≤ j + k))) ∧
    ((trimMessages maxTurns msgs).length ≤ maxTurns * 2 ∨
      (userIndices (trimMessages maxTurns msgs)).length < 2) ∧
    (c8Final.messages = [userMsg "m2", assistantMsg (Option.some "r2") [],
        userMsg "m3", assistantMsg (Option.some "r3") []] ∧
      userMsg "m1" ∉ c8Final.messages ∧ userMsg "m3" ∈ c8Final.messages) := by
  refine ⟨?_, ?_, ?_, ?_, by decide, by decide, by decide⟩
  · intro cut hover hcut
    unfold trimMessages
    rw [trimLoop_succ_eq, if_neg (by omega), hcut]
    exact trimLoop_fuel_eq (maxTurns * 2) msgs.length
      ((msgs.drop cut).length + 1) (msgs.drop cut)
      (by rw [List.length_drop]; omega)
      (Nat.le_succ _)
  · intro hlt
    unfold trimMessages
    rw [trimLoop_succ_eq]
    have hnone : (userIndices msgs).get? 1 = Option.none :=
      List.get?_eq_none.mpr (by omega)
    by_cases hle : msgs.length ≤ maxTurns * 2
    · rw [if_pos hle]
    · rw [if_neg hle, hnone]
  · rcases trimLoop_boundary (maxTurns * 2) (msgs.length + 1) msgs with ⟨d, hd, hb⟩
    refine ⟨d, hd, hb, ?_⟩
    rintro j k htool ⟨hjd, hdk⟩
    cases hb with
    | inl h0 => omega
    | inr h =>
      rcases h with ⟨hh, hrole⟩
      have ht := htool d hh hjd hdk
      rw [ht] at hrole
      exact absurd hrole (by decide)
  · exact trimLoop_post (maxTurns * 2) (msgs.length + 1) msgs (Nat.lt_succ_self _)

/-- A 5-message history (3 user turns, 2 assistant replies) used to
exercise the trimming invariants at concrete inputs. -/
def c8WitMsgs : List ChatMsg :=
  [userMsg "a", assistantMsg (Option.some "x") [], userMsg "b",
   assistantMsg (Option.some "y") [], userMsg "c"]

set_option maxRecDepth 8000 in
/-- Witness for C8: with max_turns=2 the 5-message history is over budget,
its second user message sits at index 2, one cut drops everything before
it, and a single-user-message history is returned unchanged. -/
theorem trim_messages_invariants_witness :
    2 * 2 < c8WitMsgs.length ∧
    (userIndices c8WitMsgs).get? 1 = Option.some 2 ∧
    trimMessages 2 c8WitMsgs = trimMessages 2 (c8WitMsgs.drop 2) ∧
    (userIndices [userMsg "solo"]).length < 2 ∧
    trimMessages 2 [userMsg "solo"] = [userMsg "solo"] := by
  refine ⟨by decide, by decide, ?_, by decide, ?_⟩
  · exact (trim_messages_invariants 2 c8WitMsgs).1 2 (by decide) (by decide)
  · exact (trim_messages_invariants 2 [userMsg "solo"]).2.1 (by decide)

end AzSentinel
